import Mathlib

/-!
Karabiner-Elements: grabbable-state entry and grabber receiver.

A shallow embedding of

* `src/share/grabbable_state_manager/entry.hpp` (class `entry`), and
* `src/core/grabber/include/receiver.hpp` (class `receiver`),

followed by theorems about the two classes.

Opaque identifiers of the C++ code (registry entry ids, key codes, usage pages,
usages, modifier flags, pointing buttons, time stamps, bytes) are natural
numbers.  `std::unordered_set` is `Finset`, `std::optional` / `boost::optional`
is `Option`.
-/

namespace krbn

/-! ## Types used by `entry.hpp` whose declarations live in other headers -/

/-- Values of `event_type`.  `entry::update` tests `key_down` and, in an
`else if`, `key_up`; every other value (here `single`) falls through both. -/
inductive event_type
  | key_down
  | key_up
  | single
  deriving DecidableEq, Repr

/-- Values of `grabbable_state::state`.  `entry.hpp` names `none` (constructor),
`grabbable` and `ungrabbable_temporarily`; the permanent variant is the one the
specification mentions as existing in the wider system. -/
inductive grabbable_state.state
  | none
  | grabbable
  | ungrabbable_temporarily
  | ungrabbable_permanently
  deriving DecidableEq, Repr

/-- Values of `grabbable_state::ungrabbable_temporarily_reason`. -/
inductive grabbable_state.ungrabbable_temporarily_reason
  | none
  | key_repeating
  | modifier_key_pressed
  | pointing_button_pressed
  deriving DecidableEq, Repr

/-- The value type `grabbable_state`, built by the four-argument constructor
`grabbable_state(registry_entry_id, state, reason, time_stamp)`. -/
structure grabbable_state where
  registry_entry_id_ : Nat
  state_ : grabbable_state.state
  ungrabbable_temporarily_reason_ : grabbable_state.ungrabbable_temporarily_reason
  time_stamp_ : Nat
  deriving DecidableEq, Repr

/-- What `entry::update` reads from an `event_queue::queued_event`:
`get_event_type()` and the three optional getters of `get_event()`.  The three
getters are independent here, which covers the C++ variant (at most one is
present) and more. -/
structure queued_event where
  event_type_ : event_type
  key_code : Option Nat
  consumer_key_code : Option Nat
  pointing_button : Option Nat
  deriving DecidableEq, Repr

/-- The conversion functions of namespace `types` called by `entry::update`.
Their tables are not part of `entry.hpp`; they are parameters of the model.
`make_hid_usage_page` / `make_hid_usage` are overloaded in C++ on `key_code` and
`consumer_key_code`; the overloads are separate fields here. -/
structure types where
  make_hid_usage_page : Nat → Option Nat
  make_hid_usage : Nat → Option Nat
  make_hid_usage_page_consumer : Nat → Option Nat
  make_hid_usage_consumer : Nat → Option Nat
  make_modifier_flag : Nat → Nat → Option Nat

/-- Interface of class `keyboard_repeat_detector` as used by `entry`: a default
constructed value, `set(usage_page, usage, event_type)` and `is_repeating()`.
The class body is in another header; `entry` is modelled over any
implementation of this interface. -/
structure repeat_detector where
  σ : Type
  init : σ
  set : σ → Nat → Nat → event_type → σ
  is_repeating : σ → Bool

/-- Modelled from the spec: `keyboard_repeat_detector.hpp` is missing from the
sources.  Section 4.1: `set` records a key-down or key-up for a
(usage_page, usage) pair and tracks only the most recently pressed usage; a down
on a different usage replaces the tracked usage; `is_repeating` is true from the
moment a key-down is registered until the matching key-up clears it; key-up on
the tracked usage clears the repeating flag entirely. -/
def keyboard_repeat_detector : repeat_detector where
  σ := Option (Nat × Nat)
  init := none
  set := fun r hid_usage_page hid_usage t =>
    match t with
    | .key_down => some (hid_usage_page, hid_usage)
    | .key_up => if r = some (hid_usage_page, hid_usage) then none else r
    | .single => r
  is_repeating := fun r => r.isSome

/-- The four data members of `entry` (entry.hpp:107-110). -/
structure entry (D : repeat_detector) where
  keyboard_repeat_detector_ : D.σ
  pressed_modifier_flags_ : Finset Nat
  pressed_pointing_buttons_ : Finset Nat
  grabbable_state_ : grabbable_state

namespace entry

variable {D : repeat_detector}

/-- Constructor `entry(registry_entry_id)` (entry.hpp:5-9): default members and a
`grabbable_state` of `state::none`, reason `none`, time stamp `0`. -/
def mk_entry (D : repeat_detector) (registry_entry_id : Nat) : entry D where
  keyboard_repeat_detector_ := D.init
  pressed_modifier_flags_ := ∅
  pressed_pointing_buttons_ := ∅
  grabbable_state_ := ⟨registry_entry_id, .none, .none, 0⟩

/-- Accessor `get_grabbable_state` (entry.hpp:11-13). -/
def get_grabbable_state (e : entry D) : grabbable_state :=
  e.grabbable_state_

/-- Override `set_grabbable_state` (entry.hpp:15-17). -/
def set_grabbable_state (e : entry D) (g : grabbable_state) : entry D :=
  { e with grabbable_state_ := g }

/-- First block of `update` (entry.hpp:22-39): the event carries a key code. -/
def update_key_code (T : types) (e : entry D) (q : queued_event) : entry D :=
  match q.key_code with
  | none => e
  | some key_code =>
    match T.make_hid_usage_page key_code with
    | none => e
    | some hid_usage_page =>
      match T.make_hid_usage key_code with
      | none => e
      | some hid_usage =>
        let e1 : entry D :=
          { e with keyboard_repeat_detector_ :=
              D.set e.keyboard_repeat_detector_ hid_usage_page hid_usage q.event_type_ }
        match T.make_modifier_flag hid_usage_page hid_usage with
        | none => e1
        | some m =>
          if q.event_type_ = event_type.key_down then
            { e1 with pressed_modifier_flags_ := insert m e1.pressed_modifier_flags_ }
          else if q.event_type_ = event_type.key_up then
            { e1 with pressed_modifier_flags_ := e1.pressed_modifier_flags_.erase m }
          else e1

/-- Second block of `update` (entry.hpp:41-49): the event carries a consumer key
code. -/
def update_consumer_key_code (T : types) (e : entry D) (q : queued_event) : entry D :=
  match q.consumer_key_code with
  | none => e
  | some consumer_key_code =>
    match T.make_hid_usage_page_consumer consumer_key_code with
    | none => e
    | some hid_usage_page =>
      match T.make_hid_usage_consumer consumer_key_code with
      | none => e
      | some hid_usage =>
        { e with keyboard_repeat_detector_ :=
            D.set e.keyboard_repeat_detector_ hid_usage_page hid_usage q.event_type_ }

/-- Third block of `update` (entry.hpp:51-57): the event carries a pointing
button. -/
def update_pointing_button (e : entry D) (q : queued_event) : entry D :=
  match q.pointing_button with
  | none => e
  | some pointing_button =>
    if q.event_type_ = event_type.key_down then
      { e with pressed_pointing_buttons_ := insert pointing_button e.pressed_pointing_buttons_ }
    else if q.event_type_ = event_type.key_up then
      { e with pressed_pointing_buttons_ := e.pressed_pointing_buttons_.erase pointing_button }
    else e

/-- Private `update_grabbable_state` (entry.hpp:63-105): four branches, each with an
early `return`. -/
def update_grabbable_state (e : entry D) (registry_entry_id time_stamp : Nat) : entry D :=
  if D.is_repeating e.keyboard_repeat_detector_ = true then
    { e with grabbable_state_ :=
        ⟨registry_entry_id, .ungrabbable_temporarily, .key_repeating, time_stamp⟩ }
  else if ¬ e.pressed_modifier_flags_ = ∅ then
    { e with grabbable_state_ :=
        ⟨registry_entry_id, .ungrabbable_temporarily, .modifier_key_pressed, time_stamp⟩ }
  else if ¬ e.pressed_pointing_buttons_ = ∅ then
    { e with grabbable_state_ :=
        ⟨registry_entry_id, .ungrabbable_temporarily, .pointing_button_pressed, time_stamp⟩ }
  else
    { e with grabbable_state_ := ⟨registry_entry_id, .grabbable, .none, time_stamp⟩ }

/-- Public `update(registry_entry_id, time_stamp, queued_event)`
(entry.hpp:19-60). -/
def update (T : types) (e : entry D) (registry_entry_id time_stamp : Nat)
    (q : queued_event) : entry D :=
  update_grabbable_state
    (update_pointing_button (update_consumer_key_code T (update_key_code T e q) q) q)
    registry_entry_id time_stamp

/-- One call of `update` as it arrives from the event stream. -/
structure update_call where
  registry_entry_id : Nat
  time_stamp : Nat
  queued_event : queued_event
  deriving DecidableEq, Repr

/-- A finite sequence of `update` calls applied in order. -/
def run (T : types) (e : entry D) (calls : List update_call) : entry D :=
  calls.foldl (fun acc c => update T acc c.registry_entry_id c.time_stamp c.queued_event) e

/-- The pair (state, reason) of the stored `grabbable_state`. -/
def state_reason (e : entry D) :
    grabbable_state.state × grabbable_state.ungrabbable_temporarily_reason :=
  (e.grabbable_state_.state_, e.grabbable_state_.ungrabbable_temporarily_reason_)

/-- The (state, reason) that the priority order assigns to a detector flag and
two pressed sets. -/
def derived_state_reason (repeating : Bool) (modifiers buttons : Finset Nat) :
    grabbable_state.state × grabbable_state.ungrabbable_temporarily_reason :=
  if repeating = true then (.ungrabbable_temporarily, .key_repeating)
  else if modifiers.Nonempty then (.ungrabbable_temporarily, .modifier_key_pressed)
  else if buttons.Nonempty then (.ungrabbable_temporarily, .pointing_button_pressed)
  else (.grabbable, .none)

/-- The keyboard (usage_page, usage) an event feeds to the repeat detector in the
first block, if any. -/
def key_usage (T : types) (q : queued_event) : Option (Nat × Nat) :=
  match q.key_code with
  | none => none
  | some k =>
    match T.make_hid_usage_page k with
    | none => none
    | some p =>
      match T.make_hid_usage k with
      | none => none
      | some u => some (p, u)

/-- The consumer (usage_page, usage) an event feeds to the repeat detector in the
second block, if any. -/
def consumer_usage (T : types) (q : queued_event) : Option (Nat × Nat) :=
  match q.consumer_key_code with
  | none => none
  | some c =>
    match T.make_hid_usage_page_consumer c with
    | none => none
    | some p =>
      match T.make_hid_usage_consumer c with
      | none => none
      | some u => some (p, u)

/-- The modifier flag an event mentions: its keyboard usage mapped through
`make_modifier_flag`. -/
def modifier_of (T : types) (q : queued_event) : Option Nat :=
  match key_usage T q with
  | none => none
  | some (p, u) => T.make_modifier_flag p u

/-- The repeat detector after the first two blocks of `update`: fed with the
keyboard usage, then with the consumer usage, each when present. -/
def fed_detector (T : types) (D : repeat_detector) (r : D.σ) (q : queued_event) : D.σ :=
  let r1 : D.σ :=
    match key_usage T q with
    | none => r
    | some (p, u) => D.set r p u q.event_type_
  match consumer_usage T q with
  | none => r1
  | some (p, u) => D.set r1 p u q.event_type_

/-- A pressed set after one event that mentions `x` (or nothing): inserted on
`key_down`, erased on `key_up`, untouched otherwise. -/
def pressed_after (s : Finset Nat) (x : Option Nat) (t : event_type) : Finset Nat :=
  match x with
  | none => s
  | some a =>
    if t = event_type.key_down then insert a s
    else if t = event_type.key_up then s.erase a
    else s

/-- Type of the last call in the sequence whose event mentions modifier flag
`m`, if any call does. -/
def last_modifier_event (T : types) (m : Nat) : List update_call → Option event_type
  | [] => none
  | c :: rest =>
    match last_modifier_event T m rest with
    | some t => some t
    | none =>
      if modifier_of T c.queued_event = some m then some c.queued_event.event_type_ else none

/-- Type of the last call in the sequence whose event mentions pointing button
`b`, if any call does. -/
def last_button_event (b : Nat) : List update_call → Option event_type
  | [] => none
  | c :: rest =>
    match last_button_event b rest with
    | some t => some t
    | none =>
      if c.queued_event.pointing_button = some b then some c.queued_event.event_type_ else none

end entry

/-- A small conversion table for concrete evaluation: key codes are keyboard
usages on page 7, consumer key codes are usages on page 12, usage 57
(caps lock) is modifier flag 1 and usages 224-231 are flags 2-9. -/
def sample_types : types where
  make_hid_usage_page := fun _ => some 7
  make_hid_usage := fun k => some k
  make_hid_usage_page_consumer := fun _ => some 12
  make_hid_usage_consumer := fun c => some c
  make_modifier_flag := fun p u =>
    if p = 7 ∧ u = 57 then some 1
    else if p = 7 ∧ 224 ≤ u ∧ u ≤ 231 then some (u - 222)
    else none

/-- A sample sequence of calls: caps lock down, left button down, caps lock up,
left button up, all on device 3. -/
def sample_press_release : List entry.update_call :=
  [⟨3, 100, ⟨event_type.key_down, some 57, none, none⟩⟩,
   ⟨3, 101, ⟨event_type.key_down, none, none, some 1⟩⟩,
   ⟨3, 102, ⟨event_type.key_up, some 57, none, none⟩⟩,
   ⟨3, 103, ⟨event_type.key_up, none, none, some 1⟩⟩]

/-- A sample sequence of calls during which key code 4 stays held: a pointing
button goes down, key code 5 goes up. -/
def sample_quiet : List entry.update_call :=
  [⟨3, 101, ⟨event_type.key_down, none, none, some 1⟩⟩,
   ⟨3, 102, ⟨event_type.key_up, some 5, none, none⟩⟩]

/-- A repeat detector that never reports repeating, for concrete evaluation of
statements that hold for every detector. -/
def silent_detector : repeat_detector where
  σ := Unit
  init := ()
  set := fun r _ _ _ => r
  is_repeating := fun _ => false

end krbn

/-! ## Types used by `receiver.hpp` whose declarations live in other headers -/

namespace krbn

/-- Values of `operation_type` as seen by the `switch` in `receiver::worker`: the
five case labels, and `other` for every value that reaches `default:`. -/
inductive operation_type
  | grabbable_state_changed
  | connect
  | system_preferences_updated
  | frontmost_application_changed
  | input_source_changed
  | other
  deriving DecidableEq, Repr

/-- A member of a wire struct: its byte offset in the struct and its `sizeof`. -/
structure field where
  offset : Nat
  size : Nat
  deriving DecidableEq, Repr

/-- The wire structs `operation_type_*_struct` and the cast
`operation_type(buffer_[0])`.  Their declarations are not part of
`receiver.hpp`; sizes, member layouts and the cast are parameters of the
model. -/
structure wire where
  cast : Nat → operation_type
  sizeof_grabbable_state_changed_struct : Nat
  grabbable_state : field
  sizeof_connect_struct : Nat
  pid : field
  user_core_configuration_file_path : field
  sizeof_system_preferences_updated_struct : Nat
  system_preferences : field
  sizeof_frontmost_application_changed_struct : Nat
  bundle_identifier : field
  file_path : field
  sizeof_input_source_changed_struct : Nat
  language : field
  input_source_id : field
  input_mode_id : field

/-- Bytes of member `f` of the struct that `p` points to: `p` aliases
`&(buffer_[0])`. -/
def field_bytes (buffer : List Nat) (f : field) : List Nat :=
  (buffer.drop f.offset).take f.size

/-- The statement `p->f[sizeof(p->f) - 1] = 0` on a `char` array member. -/
def terminate (buffer : List Nat) (f : field) : List Nat :=
  buffer.set (f.offset + (f.size - 1)) 0

/-- Conversion of the `char` array member `p->f` to a string: the bytes from the
start of the member up to the first zero byte found in memory. -/
def c_string (buffer : List Nat) (f : field) : List Nat :=
  (buffer.drop f.offset).takeWhile (fun b => b != 0)

/-- The capacity-bounded, forcibly terminated string of a member, in the words of
the specification: the bytes of the member before its first zero byte when one
occurs among the first `size - 1` bytes, and otherwise the first `size - 1`
bytes. -/
def capacity_bounded_string (buffer : List Nat) (f : field) : List Nat :=
  if 0 ∈ (field_bytes buffer f).take (f.size - 1) then
    ((field_bytes buffer f).take (f.size - 1)).takeWhile (fun b => b != 0)
  else (field_bytes buffer f).take (f.size - 1)

/-- Calls that `receiver` makes on its collaborators, in the order made.
Payloads are the bytes handed over. -/
inductive call
  | grabbable_state_queues_manager_clear
  | grabbable_state_queues_manager_update_grabbable_state (grabbable_state : List Nat)
  | device_grabber_ctor
  | device_grabber_dtor
  | device_grabber_start (path : List Nat)
  | device_grabber_set_system_preferences (system_preferences : List Nat)
  | device_grabber_post_frontmost_application_changed_event
      (bundle_identifier file_path : List Nat)
  | device_grabber_post_input_source_changed_event
      (language input_source_id input_mode_id : List Nat)
  | process_monitor_ctor (pid : List Nat)
  | process_monitor_dtor (pid : List Nat)
  deriving DecidableEq, Repr

/-- Lines written through `logger::get_logger()`. -/
inductive log_line
  | error_invalid_size (op : operation_type)
  | info_connected (pid : List Nat)
  | info_system_preferences_updated
  deriving DecidableEq, Repr

/-- The object behind `device_grabber_`: the path it was started against, if
`start` has been called on it. -/
structure device_grabber where
  started : Option (List Nat)
  deriving DecidableEq, Repr

/-- The object behind `console_user_server_process_monitor_`: the process id it
was constructed with. -/
structure process_monitor where
  pid : List Nat
  deriving DecidableEq, Repr

/-! ## `class receiver` -/

/-- Data members of `receiver` read or written by the worker and the callbacks
(receiver.hpp:176-182), with the trace of collaborator calls and the log. -/
structure receiver where
  buffer_ : List Nat
  device_grabber_ : Option device_grabber
  console_user_server_process_monitor_ : Option process_monitor
  calls : List call
  log : List log_line
  deriving DecidableEq, Repr

namespace receiver

/-- The statement `device_grabber_ = nullptr`: destroys the owned object, if
any. -/
def reset_device_grabber (s : receiver) : receiver :=
  match s.device_grabber_ with
  | none => s
  | some _ =>
    { s with device_grabber_ := none, calls := s.calls ++ [call.device_grabber_dtor] }

/-- The statement `device_grabber_ = std::make_unique<device_grabber>()`: the new
object is constructed first, then the move assignment destroys the object owned
so far, if any. -/
def make_device_grabber (s : receiver) : receiver :=
  let s1 : receiver := { s with calls := s.calls ++ [call.device_grabber_ctor] }
  match s1.device_grabber_ with
  | none => { s1 with device_grabber_ := some ⟨none⟩ }
  | some _ =>
    { s1 with device_grabber_ := some ⟨none⟩, calls := s1.calls ++ [call.device_grabber_dtor] }

/-- The statement `device_grabber_->start(path)` on a non-null pointer. -/
def device_grabber_start (s : receiver) (path : List Nat) : receiver :=
  match s.device_grabber_ with
  | none => s
  | some _ =>
    { s with device_grabber_ := some ⟨some path⟩,
             calls := s.calls ++ [call.device_grabber_start path] }

/-- The statement `console_user_server_process_monitor_ = nullptr`. -/
def reset_process_monitor (s : receiver) : receiver :=
  match s.console_user_server_process_monitor_ with
  | none => s
  | some m =>
    { s with console_user_server_process_monitor_ := none,
             calls := s.calls ++ [call.process_monitor_dtor m.pid] }

/-- The statement
`console_user_server_process_monitor_ = std::make_unique<process_monitor>(pid, ...)`. -/
def make_process_monitor (s : receiver) (pid : List Nat) : receiver :=
  let s1 : receiver := { s with calls := s.calls ++ [call.process_monitor_ctor pid] }
  match s1.console_user_server_process_monitor_ with
  | none => { s1 with console_user_server_process_monitor_ := some ⟨pid⟩ }
  | some m =>
    { s1 with console_user_server_process_monitor_ := some ⟨pid⟩,
              calls := s1.calls ++ [call.process_monitor_dtor m.pid] }

/-- Case `grabbable_state_changed` (receiver.hpp:63-73). -/
def on_grabbable_state_changed (W : wire) (s : receiver) (n : Nat) : receiver :=
  if n ≠ W.sizeof_grabbable_state_changed_struct then
    { s with log := s.log ++ [log_line.error_invalid_size operation_type.grabbable_state_changed] }
  else
    { s with calls := s.calls ++
        [call.grabbable_state_queues_manager_update_grabbable_state
          (field_bytes s.buffer_ W.grabbable_state)] }

/-- Case `connect` (receiver.hpp:75-97). -/
def on_connect (W : wire) (s : receiver) (n : Nat) : receiver :=
  if n ≠ W.sizeof_connect_struct then
    { s with log := s.log ++ [log_line.error_invalid_size operation_type.connect] }
  else
    let s1 : receiver :=
      { s with buffer_ := terminate s.buffer_ W.user_core_configuration_file_path }
    let s2 : receiver :=
      { s1 with log := s1.log ++ [log_line.info_connected (field_bytes s1.buffer_ W.pid)] }
    let s3 := make_device_grabber (reset_device_grabber s2)
    let s4 := device_grabber_start s3 (c_string s3.buffer_ W.user_core_configuration_file_path)
    make_process_monitor (reset_process_monitor s4) (field_bytes s4.buffer_ W.pid)

/-- Case `system_preferences_updated` (receiver.hpp:99-112). -/
def on_system_preferences_updated (W : wire) (s : receiver) (n : Nat) : receiver :=
  if n < W.sizeof_system_preferences_updated_struct then
    { s with log := s.log ++
        [log_line.error_invalid_size operation_type.system_preferences_updated] }
  else
    match s.device_grabber_ with
    | none => s
    | some _ =>
      { s with calls := s.calls ++
                 [call.device_grabber_set_system_preferences
                   (field_bytes s.buffer_ W.system_preferences)],
               log := s.log ++ [log_line.info_system_preferences_updated] }

/-- Case `frontmost_application_changed` (receiver.hpp:114-131). -/
def on_frontmost_application_changed (W : wire) (s : receiver) (n : Nat) : receiver :=
  if n < W.sizeof_frontmost_application_changed_struct then
    { s with log := s.log ++
        [log_line.error_invalid_size operation_type.frontmost_application_changed] }
  else
    let s1 : receiver :=
      { s with buffer_ := terminate (terminate s.buffer_ W.bundle_identifier) W.file_path }
    match s1.device_grabber_ with
    | none => s1
    | some _ =>
      { s1 with calls := s1.calls ++
          [call.device_grabber_post_frontmost_application_changed_event
            (c_string s1.buffer_ W.bundle_identifier) (c_string s1.buffer_ W.file_path)] }

/-- Case `input_source_changed` (receiver.hpp:133-152). -/
def on_input_source_changed (W : wire) (s : receiver) (n : Nat) : receiver :=
  if n < W.sizeof_input_source_changed_struct then
    { s with log := s.log ++ [log_line.error_invalid_size operation_type.input_source_changed] }
  else
    let s1 : receiver :=
      { s with buffer_ := terminate
                 (terminate (terminate s.buffer_ W.language) W.input_source_id) W.input_mode_id }
    match s1.device_grabber_ with
    | none => s1
    | some _ =>
      { s1 with calls := s1.calls ++
          [call.device_grabber_post_input_source_changed_event
            (c_string s1.buffer_ W.language) (c_string s1.buffer_ W.input_source_id)
            (c_string s1.buffer_ W.input_mode_id)] }

/-- The `switch (operation_type(buffer_[0]))` of `worker` (receiver.hpp:62-156). -/
def dispatch (W : wire) (s : receiver) (n : Nat) : receiver :=
  match W.cast (s.buffer_.getD 0 0) with
  | operation_type.grabbable_state_changed => on_grabbable_state_changed W s n
  | operation_type.connect => on_connect W s n
  | operation_type.system_preferences_updated => on_system_preferences_updated W s n
  | operation_type.frontmost_application_changed => on_frontmost_application_changed W s n
  | operation_type.input_source_changed => on_input_source_changed W s n
  | operation_type.other => s

/-- What one call `server_->receive(buffer(buffer_), seconds(1), ec)` yields: whether
`ec` is set, the returned `n`, and the contents of `buffer_` afterwards. -/
structure receive_result where
  ec : Bool
  n : Nat
  buffer : List Nat
  deriving DecidableEq, Repr

/-- One iteration of the `while` body of `worker` (receiver.hpp:58-157). -/
def worker_iteration (W : wire) (s : receiver) (r : receive_result) : receiver :=
  let s1 : receiver := { s with buffer_ := r.buffer }
  if r.ec = false ∧ 0 < r.n then dispatch W s1 r.n else s1

/-- The loop `while (!exit_loop_)` of `worker` (receiver.hpp:57-158) along a finite
schedule: each element is the value of `exit_loop_` read at the loop head and
the result of the receive that follows when it is `false`. -/
def worker_loop (W : wire) : List (Bool × receive_result) → receiver → receiver
  | [], s => s
  | (exit_loop, r) :: rest, s =>
    if exit_loop = true then s else worker_loop W rest (worker_iteration W s r)

/-- Method `worker` (receiver.hpp:50-159) with a non-null `server_`: clears the
shared manager, then loops. -/
def worker (W : wire) (schedule : List (Bool × receive_result)) (s : receiver) : receiver :=
  worker_loop W schedule
    { s with calls := s.calls ++ [call.grabbable_state_queues_manager_clear] }

/-- Method `start_grabbing_if_system_core_configuration_file_exists`
(receiver.hpp:167-174); the path constant and the result of `filesystem::exists`
are arguments. -/
def start_grabbing_if_system_core_configuration_file_exists
    (system_core_configuration_file_path : List Nat) (file_exists : Bool) (s : receiver) :
    receiver :=
  if file_exists = true then
    device_grabber_start (make_device_grabber (reset_device_grabber s))
      system_core_configuration_file_path
  else s

/-- Method `console_user_server_exit_callback` (receiver.hpp:161-165). -/
def console_user_server_exit_callback
    (system_core_configuration_file_path : List Nat) (file_exists : Bool) (s : receiver) :
    receiver :=
  start_grabbing_if_system_core_configuration_file_exists
    system_core_configuration_file_path file_exists (reset_device_grabber s)

/-- Number of live objects after a trace of constructor and destructor calls,
starting from `live`. -/
def live_after (is_ctor is_dtor : call → Bool) (live : Nat) : List call → Nat
  | [] => live
  | c :: rest =>
    live_after is_ctor is_dtor
      (if is_ctor c = true then live + 1 else if is_dtor c = true then live - 1 else live) rest

/-- Largest number of simultaneously live objects at any point of a trace of
constructor and destructor calls, starting from `live`. -/
def peak_live (is_ctor is_dtor : call → Bool) (live : Nat) : List call → Nat
  | [] => live
  | c :: rest =>
    max live
      (peak_live is_ctor is_dtor
        (if is_ctor c = true then live + 1 else if is_dtor c = true then live - 1 else live) rest)

/-- Recognises the construction of a `device_grabber`. -/
def is_device_grabber_ctor : call → Bool
  | call.device_grabber_ctor => true
  | _ => false

/-- Recognises the destruction of a `device_grabber`. -/
def is_device_grabber_dtor : call → Bool
  | call.device_grabber_dtor => true
  | _ => false

/-- Recognises the construction of a `process_monitor`. -/
def is_process_monitor_ctor : call → Bool
  | call.process_monitor_ctor _ => true
  | _ => false

/-- Recognises the destruction of a `process_monitor`. -/
def is_process_monitor_dtor : call → Bool
  | call.process_monitor_dtor _ => true
  | _ => false

/-- Number of objects a `std::unique_ptr` member owns: 1 or 0. -/
def owned {α : Type} (p : Option α) : Nat :=
  if p.isSome = true then 1 else 0

/-- Calls made by an accepted `connect` on a receiver in state `s`: the previous
device grabber is destroyed, a new one constructed and started, the previous
process monitor is destroyed and a new one constructed. -/
def connect_calls (s : receiver) (path pid : List Nat) : List call :=
  (match s.device_grabber_ with
    | none => []
    | some _ => [call.device_grabber_dtor]) ++
  [call.device_grabber_ctor, call.device_grabber_start path] ++
  (match s.console_user_server_process_monitor_ with
    | none => []
    | some m => [call.process_monitor_dtor m.pid]) ++
  [call.process_monitor_ctor pid]

end receiver

/-- A member lies inside a struct of the given size and has at least one byte. -/
def field.fits (f : field) (sizeof_struct : Nat) : Prop :=
  0 < f.size ∧ f.offset + f.size ≤ sizeof_struct

/-- Two members of one struct do not overlap. -/
def field.disjoint (f g : field) : Prop :=
  f.offset + f.size ≤ g.offset ∨ g.offset + g.size ≤ f.offset

/-- The `char` array members of the wire structs lie inside their structs and do
not overlap one another, as members of a C++ struct do. -/
def wire.strings_well_formed (W : wire) : Prop :=
  W.user_core_configuration_file_path.fits W.sizeof_connect_struct ∧
  W.bundle_identifier.fits W.sizeof_frontmost_application_changed_struct ∧
  W.file_path.fits W.sizeof_frontmost_application_changed_struct ∧
  W.bundle_identifier.disjoint W.file_path ∧
  W.language.fits W.sizeof_input_source_changed_struct ∧
  W.input_source_id.fits W.sizeof_input_source_changed_struct ∧
  W.input_mode_id.fits W.sizeof_input_source_changed_struct ∧
  W.language.disjoint W.input_source_id ∧
  W.language.disjoint W.input_mode_id ∧
  W.input_source_id.disjoint W.input_mode_id

/-- A small wire layout for concrete evaluation: tags 1 to 5 in the order of the
`switch`; every struct starts with its one-byte tag. -/
def sample_wire : wire where
  cast := fun b =>
    if b = 1 then operation_type.grabbable_state_changed
    else if b = 2 then operation_type.connect
    else if b = 3 then operation_type.system_preferences_updated
    else if b = 4 then operation_type.frontmost_application_changed
    else if b = 5 then operation_type.input_source_changed
    else operation_type.other
  sizeof_grabbable_state_changed_struct := 4
  grabbable_state := ⟨1, 3⟩
  sizeof_connect_struct := 6
  pid := ⟨1, 2⟩
  user_core_configuration_file_path := ⟨3, 3⟩
  sizeof_system_preferences_updated_struct := 3
  system_preferences := ⟨1, 2⟩
  sizeof_frontmost_application_changed_struct := 7
  bundle_identifier := ⟨1, 3⟩
  file_path := ⟨4, 3⟩
  sizeof_input_source_changed_struct := 7
  language := ⟨1, 2⟩
  input_source_id := ⟨3, 2⟩
  input_mode_id := ⟨5, 2⟩

/-- A receiver with an 8-byte buffer, no device grabber and no process monitor. -/
def sample_receiver : receiver where
  buffer_ := [0, 0, 0, 0, 0, 0, 0, 0]
  device_grabber_ := none
  console_user_server_process_monitor_ := none
  calls := []
  log := []

/-- A receiver with an 8-byte buffer that owns a started device grabber and a
process monitor on pid bytes `[9, 0]`. -/
def sample_receiver_connected : receiver where
  buffer_ := [0, 0, 0, 0, 0, 0, 0, 0]
  device_grabber_ := some ⟨some [47]⟩
  console_user_server_process_monitor_ := some ⟨[9, 0]⟩
  calls := []
  log := []

end krbn

/-! ## Lemmas about `entry::update` -/

namespace krbn
namespace entry

variable {D : repeat_detector}

theorem update_grabbable_state_detector (e : entry D) (d t : Nat) :
    (update_grabbable_state e d t).keyboard_repeat_detector_ = e.keyboard_repeat_detector_ := by
  unfold update_grabbable_state
  split_ifs <;> rfl

theorem update_grabbable_state_modifiers (e : entry D) (d t : Nat) :
    (update_grabbable_state e d t).pressed_modifier_flags_ = e.pressed_modifier_flags_ := by
  unfold update_grabbable_state
  split_ifs <;> rfl

theorem update_grabbable_state_buttons (e : entry D) (d t : Nat) :
    (update_grabbable_state e d t).pressed_pointing_buttons_ = e.pressed_pointing_buttons_ := by
  unfold update_grabbable_state
  split_ifs <;> rfl

theorem update_grabbable_state_state_reason (e : entry D) (d t : Nat) :
    state_reason (update_grabbable_state e d t) =
      derived_state_reason (D.is_repeating e.keyboard_repeat_detector_)
        e.pressed_modifier_flags_ e.pressed_pointing_buttons_ := by
  unfold update_grabbable_state derived_state_reason state_reason
  simp only [Finset.nonempty_iff_ne_empty]
  split_ifs <;> first | rfl | contradiction

theorem update_grabbable_state_stamp (e : entry D) (d t : Nat) :
    (update_grabbable_state e d t).grabbable_state_.registry_entry_id_ = d ∧
      (update_grabbable_state e d t).grabbable_state_.time_stamp_ = t := by
  unfold update_grabbable_state
  split_ifs <;> exact ⟨rfl, rfl⟩

theorem update_pointing_button_detector (e : entry D) (q : queued_event) :
    (update_pointing_button e q).keyboard_repeat_detector_ = e.keyboard_repeat_detector_ := by
  unfold update_pointing_button
  split
  · rfl
  · split_ifs <;> rfl

theorem update_pointing_button_modifiers (e : entry D) (q : queued_event) :
    (update_pointing_button e q).pressed_modifier_flags_ = e.pressed_modifier_flags_ := by
  unfold update_pointing_button
  split
  · rfl
  · split_ifs <;> rfl

theorem update_pointing_button_buttons (e : entry D) (q : queued_event) :
    (update_pointing_button e q).pressed_pointing_buttons_ =
      pressed_after e.pressed_pointing_buttons_ q.pointing_button q.event_type_ := by
  unfold update_pointing_button pressed_after
  split
  · rfl
  · split_ifs <;> rfl

theorem update_consumer_key_code_modifiers (T : types) (e : entry D) (q : queued_event) :
    (update_consumer_key_code T e q).pressed_modifier_flags_ = e.pressed_modifier_flags_ := by
  unfold update_consumer_key_code
  repeat' split
  all_goals rfl

theorem update_consumer_key_code_buttons (T : types) (e : entry D) (q : queued_event) :
    (update_consumer_key_code T e q).pressed_pointing_buttons_ = e.pressed_pointing_buttons_ := by
  unfold update_consumer_key_code
  repeat' split
  all_goals rfl

theorem update_consumer_key_code_detector (T : types) (e : entry D) (q : queued_event) :
    (update_consumer_key_code T e q).keyboard_repeat_detector_ =
      match consumer_usage T q with
      | none => e.keyboard_repeat_detector_
      | some (p, u) => D.set e.keyboard_repeat_detector_ p u q.event_type_ := by
  unfold update_consumer_key_code consumer_usage
  cases q.consumer_key_code with
  | none => rfl
  | some c =>
    dsimp only
    cases T.make_hid_usage_page_consumer c with
    | none => rfl
    | some p =>
      dsimp only
      cases T.make_hid_usage_consumer c with
      | none => rfl
      | some u => rfl

theorem update_key_code_buttons (T : types) (e : entry D) (q : queued_event) :
    (update_key_code T e q).pressed_pointing_buttons_ = e.pressed_pointing_buttons_ := by
  unfold update_key_code
  repeat' split
  all_goals rfl

theorem update_key_code_detector (T : types) (e : entry D) (q : queued_event) :
    (update_key_code T e q).keyboard_repeat_detector_ =
      match key_usage T q with
      | none => e.keyboard_repeat_detector_
      | some (p, u) => D.set e.keyboard_repeat_detector_ p u q.event_type_ := by
  unfold update_key_code key_usage
  cases q.key_code with
  | none => rfl
  | some k =>
    dsimp only
    cases T.make_hid_usage_page k with
    | none => rfl
    | some p =>
      dsimp only
      cases T.make_hid_usage k with
      | none => rfl
      | some u =>
        dsimp only
        split
        · rfl
        · split_ifs <;> rfl

theorem update_key_code_modifiers (T : types) (e : entry D) (q : queued_event) :
    (update_key_code T e q).pressed_modifier_flags_ =
      pressed_after e.pressed_modifier_flags_ (modifier_of T q) q.event_type_ := by
  unfold update_key_code modifier_of key_usage pressed_after
  cases q.key_code with
  | none => rfl
  | some k =>
    dsimp only
    cases T.make_hid_usage_page k with
    | none => rfl
    | some p =>
      dsimp only
      cases T.make_hid_usage k with
      | none => rfl
      | some u =>
        dsimp only
        cases T.make_modifier_flag p u with
        | none => rfl
        | some m =>
          dsimp only
          split_ifs <;> rfl

theorem update_detector (T : types) (e : entry D) (d t : Nat) (q : queued_event) :
    (update T e d t q).keyboard_repeat_detector_ =
      fed_detector T D e.keyboard_repeat_detector_ q := by
  unfold update fed_detector
  rw [update_grabbable_state_detector, update_pointing_button_detector,
    update_consumer_key_code_detector, update_key_code_detector]

theorem update_modifiers (T : types) (e : entry D) (d t : Nat) (q : queued_event) :
    (update T e d t q).pressed_modifier_flags_ =
      pressed_after e.pressed_modifier_flags_ (modifier_of T q) q.event_type_ := by
  unfold update
  rw [update_grabbable_state_modifiers, update_pointing_button_modifiers,
    update_consumer_key_code_modifiers, update_key_code_modifiers]

theorem update_buttons (T : types) (e : entry D) (d t : Nat) (q : queued_event) :
    (update T e d t q).pressed_pointing_buttons_ =
      pressed_after e.pressed_pointing_buttons_ q.pointing_button q.event_type_ := by
  unfold update
  rw [update_grabbable_state_buttons, update_pointing_button_buttons,
    update_consumer_key_code_buttons, update_key_code_buttons]

theorem update_state_reason (T : types) (e : entry D) (d t : Nat) (q : queued_event) :
    state_reason (update T e d t q) =
      derived_state_reason
        (D.is_repeating (update T e d t q).keyboard_repeat_detector_)
        (update T e d t q).pressed_modifier_flags_
        (update T e d t q).pressed_pointing_buttons_ := by
  have h := update_grabbable_state_state_reason
    (update_pointing_button (update_consumer_key_code T (update_key_code T e q) q) q) d t
  unfold update
  rw [h, update_grabbable_state_detector, update_grabbable_state_modifiers,
    update_grabbable_state_buttons]

end entry
end krbn

/-! ## Lemmas about sequences of updates and the section 4.1 detector -/

namespace krbn
namespace entry

variable {D : repeat_detector}

theorem state_reason_eq_iff (e : entry D) (a : grabbable_state.state)
    (b : grabbable_state.ungrabbable_temporarily_reason) :
    state_reason e = (a, b) ↔
      e.grabbable_state_.state_ = a ∧ e.grabbable_state_.ungrabbable_temporarily_reason_ = b := by
  unfold state_reason
  exact Prod.mk.injEq _ _ _ _ ▸ Iff.rfl

theorem run_nil (T : types) (e : entry D) : run T e [] = e := rfl

theorem run_cons (T : types) (e : entry D) (c : update_call) (rest : List update_call) :
    run T e (c :: rest) =
      run T (update T e c.registry_entry_id c.time_stamp c.queued_event) rest := rfl

theorem run_append (T : types) (e : entry D) (xs ys : List update_call) :
    run T e (xs ++ ys) = run T (run T e xs) ys := by
  unfold run
  rw [List.foldl_append]

/-- Under the section 4.1 detector a `key_down` that feeds the detector leaves it
tracking the usage fed last. -/
theorem fed_detector_key_down (T : types) (r : Option (Nat × Nat)) (q : queued_event)
    (hdown : q.event_type_ = event_type.key_down)
    (hfeeds : key_usage T q ≠ none ∨ consumer_usage T q ≠ none) :
    ∃ x, fed_detector T keyboard_repeat_detector r q = some x ∧
      (key_usage T q = some x ∨ consumer_usage T q = some x) := by
  unfold fed_detector
  cases hk : key_usage T q with
  | none =>
    cases hc : consumer_usage T q with
    | none => simp [hk, hc] at hfeeds
    | some y =>
      obtain ⟨p, u⟩ := y
      exact ⟨(p, u), by simp [keyboard_repeat_detector, hdown], Or.inr rfl⟩
  | some x =>
    obtain ⟨p, u⟩ := x
    cases hc : consumer_usage T q with
    | none => exact ⟨(p, u), by simp [keyboard_repeat_detector, hdown], Or.inl rfl⟩
    | some y =>
      obtain ⟨p2, u2⟩ := y
      exact ⟨(p2, u2), by simp [keyboard_repeat_detector, hdown], Or.inr rfl⟩

/-- Under the section 4.1 detector an event that is neither the `key_up` of the
tracked usage nor a `key_down` of another usage leaves the tracked usage as it
is. -/
theorem fed_detector_quiet (T : types) (x : Nat × Nat) (q : queued_event)
    (hup : ¬ (q.event_type_ = event_type.key_up ∧
      (key_usage T q = some x ∨ consumer_usage T q = some x)))
    (hdown : ¬ (q.event_type_ = event_type.key_down ∧
      ∃ y, (key_usage T q = some y ∨ consumer_usage T q = some y) ∧ y ≠ x)) :
    fed_detector T keyboard_repeat_detector (some x) q = some x := by
  unfold fed_detector
  cases ht : q.event_type_ with
  | single =>
    cases key_usage T q <;> cases consumer_usage T q <;> simp [keyboard_repeat_detector]
  | key_up =>
    cases hk : key_usage T q with
    | none =>
      cases hc : consumer_usage T q with
      | none => simp
      | some y =>
        have : y ≠ x := fun h => hup ⟨ht, Or.inr (by rw [hc, h])⟩
        simp [keyboard_repeat_detector, Ne.symm this]
    | some z =>
      have hz : z ≠ x := fun h => hup ⟨ht, Or.inl (by rw [hk, h])⟩
      cases hc : consumer_usage T q with
      | none => simp [keyboard_repeat_detector, Ne.symm hz]
      | some y =>
        have : y ≠ x := fun h => hup ⟨ht, Or.inr (by rw [hc, h])⟩
        simp [keyboard_repeat_detector, Ne.symm this, Ne.symm hz]
  | key_down =>
    cases hk : key_usage T q with
    | none =>
      cases hc : consumer_usage T q with
      | none => simp
      | some y =>
        have : y = x := by
          by_contra h
          exact hdown ⟨ht, y, Or.inr (by rw [hc]), h⟩
        simp [keyboard_repeat_detector, this]
    | some z =>
      have hz : z = x := by
        by_contra h
        exact hdown ⟨ht, z, Or.inl (by rw [hk]), h⟩
      cases hc : consumer_usage T q with
      | none => simp [keyboard_repeat_detector, hz]
      | some y =>
        have : y = x := by
          by_contra h
          exact hdown ⟨ht, y, Or.inr (by rw [hc]), h⟩
        simp [keyboard_repeat_detector, this]

/-- Under the section 4.1 detector the `key_up` of the tracked usage clears the
detector. -/
theorem fed_detector_key_up (T : types) (x : Nat × Nat) (q : queued_event)
    (hup : q.event_type_ = event_type.key_up)
    (hfeeds : key_usage T q = some x ∨ consumer_usage T q = some x) :
    fed_detector T keyboard_repeat_detector (some x) q = none := by
  unfold fed_detector
  cases hk : key_usage T q with
  | none =>
    cases hc : consumer_usage T q with
    | none => simp [hk, hc] at hfeeds
    | some y =>
      have : y = x := by simpa [hk, hc] using hfeeds
      simp [keyboard_repeat_detector, hup, this]
  | some z =>
    cases hc : consumer_usage T q with
    | none =>
      have : z = x := by simpa [hk, hc] using hfeeds
      simp [keyboard_repeat_detector, hup, this]
    | some y =>
      by_cases hz : z = x
      · simp [keyboard_repeat_detector, hup, hz]
      · have hy : y = x := by
          rcases hfeeds with h | h
          · exact absurd (by simpa [hk] using h) hz
          · simpa [hc] using h
        have hz2 : ¬ x = z := fun h => hz h.symm
        simp [keyboard_repeat_detector, hup, hy, hz2]

/-- While the section 4.1 detector tracks a usage, `update` stores
`key_repeating`. -/
theorem update_key_repeating_of_tracked (T : types) (e : entry keyboard_repeat_detector)
    (d t : Nat) (q : queued_event) (x : Nat × Nat)
    (h : (update T e d t q).keyboard_repeat_detector_ = some x) :
    state_reason (update T e d t q) =
      (grabbable_state.state.ungrabbable_temporarily,
        grabbable_state.ungrabbable_temporarily_reason.key_repeating) := by
  rw [update_state_reason, h]
  rfl

/-- A sequence of quiet events keeps the tracked usage and the `key_repeating`
state. -/
theorem run_quiet (T : types) (x : Nat × Nat) (calls : List update_call) :
    ∀ e : entry keyboard_repeat_detector,
      e.keyboard_repeat_detector_ = some x →
      state_reason e =
        (grabbable_state.state.ungrabbable_temporarily,
          grabbable_state.ungrabbable_temporarily_reason.key_repeating) →
      (∀ c ∈ calls,
        ¬ (c.queued_event.event_type_ = event_type.key_up ∧
            (key_usage T c.queued_event = some x ∨ consumer_usage T c.queued_event = some x)) ∧
        ¬ (c.queued_event.event_type_ = event_type.key_down ∧
            ∃ y, (key_usage T c.queued_event = some y ∨
              consumer_usage T c.queued_event = some y) ∧ y ≠ x)) →
      (run T e calls).keyboard_repeat_detector_ = some x ∧
        state_reason (run T e calls) =
          (grabbable_state.state.ungrabbable_temporarily,
            grabbable_state.ungrabbable_temporarily_reason.key_repeating) := by
  induction calls with
  | nil => intro e hx hs _; exact ⟨hx, hs⟩
  | cons c rest ih =>
    intro e hx hs hq
    rw [run_cons]
    have hc := hq c (List.mem_cons_self _ _)
    have hd : (update T e c.registry_entry_id c.time_stamp c.queued_event).keyboard_repeat_detector_
        = some x := by
      rw [update_detector, hx]
      exact fed_detector_quiet T x c.queued_event hc.1 hc.2
    exact ih _ hd (update_key_repeating_of_tracked T e _ _ _ x hd)
      (fun c2 h2 => hq c2 (List.mem_cons_of_mem _ h2))

end entry
end krbn

/-! ## Lemmas about the pressed sets along a sequence of updates -/

namespace krbn
namespace entry

variable {D : repeat_detector}

theorem last_modifier_event_eq_none (T : types) (m : Nat) (calls : List update_call) :
    last_modifier_event T m calls = none ↔
      ∀ c ∈ calls, modifier_of T c.queued_event ≠ some m := by
  induction calls with
  | nil => simp [last_modifier_event]
  | cons c rest ih =>
    unfold last_modifier_event
    cases h : last_modifier_event T m rest with
    | some t =>
      have : ¬ ∀ c ∈ rest, modifier_of T c.queued_event ≠ some m := fun hh => by
        rw [ih.mpr hh] at h
        cases h
      simp only [List.mem_cons, forall_eq_or_imp]
      constructor
      · intro h2; cases h2
      · intro h2; exact absurd h2.2 this
    | none =>
      have hrest := ih.mp h
      simp only [List.mem_cons, forall_eq_or_imp]
      by_cases hc : modifier_of T c.queued_event = some m
      · simp [hc]
      · simp only [hc, if_false, ne_eq, not_false_eq_true, true_and, true_iff]
        exact hrest

theorem last_button_event_eq_none (b : Nat) (calls : List update_call) :
    last_button_event b calls = none ↔
      ∀ c ∈ calls, c.queued_event.pointing_button ≠ some b := by
  induction calls with
  | nil => simp [last_button_event]
  | cons c rest ih =>
    unfold last_button_event
    cases h : last_button_event b rest with
    | some t =>
      have : ¬ ∀ c ∈ rest, c.queued_event.pointing_button ≠ some b := fun hh => by
        rw [ih.mpr hh] at h
        cases h
      simp only [List.mem_cons, forall_eq_or_imp]
      constructor
      · intro h2; cases h2
      · intro h2; exact absurd h2.2 this
    | none =>
      have hrest := ih.mp h
      simp only [List.mem_cons, forall_eq_or_imp]
      by_cases hc : c.queued_event.pointing_button = some b
      · simp [hc]
      · simp only [hc, if_false, ne_eq, not_false_eq_true, true_and, true_iff]
        exact hrest

theorem mem_pressed_after_of_ne (s : Finset Nat) (x : Option Nat) (t : event_type) (a : Nat)
    (h : x ≠ some a) : a ∈ pressed_after s x t ↔ a ∈ s := by
  unfold pressed_after
  cases x with
  | none => rfl
  | some b =>
    have hb : a ≠ b := fun hab => h (by rw [hab])
    dsimp only
    split_ifs
    · simp [hb]
    · simp [hb]
    · rfl

theorem not_mem_pressed_after_key_up (s : Finset Nat) (a : Nat) :
    a ∉ pressed_after s (some a) event_type.key_up := by
  simp [pressed_after]

/-- Calls that do not mention modifier flag `m` do not change its membership. -/
theorem run_modifiers_of_not_mentioned (T : types) (m : Nat) (calls : List update_call) :
    ∀ e : entry D, (∀ c ∈ calls, modifier_of T c.queued_event ≠ some m) →
      (m ∈ (run T e calls).pressed_modifier_flags_ ↔ m ∈ e.pressed_modifier_flags_) := by
  induction calls with
  | nil => intro e _; rfl
  | cons c rest ih =>
    intro e h
    rw [run_cons, ih _ (fun c2 h2 => h c2 (List.mem_cons_of_mem _ h2)), update_modifiers]
    exact mem_pressed_after_of_ne _ _ _ _ (h c (List.mem_cons_self _ _))

/-- Calls that do not mention pointing button `b` do not change its membership. -/
theorem run_buttons_of_not_mentioned (T : types) (b : Nat) (calls : List update_call) :
    ∀ e : entry D, (∀ c ∈ calls, c.queued_event.pointing_button ≠ some b) →
      (b ∈ (run T e calls).pressed_pointing_buttons_ ↔ b ∈ e.pressed_pointing_buttons_) := by
  induction calls with
  | nil => intro e _; rfl
  | cons c rest ih =>
    intro e h
    rw [run_cons, ih _ (fun c2 h2 => h c2 (List.mem_cons_of_mem _ h2)), update_buttons]
    exact mem_pressed_after_of_ne _ _ _ _ (h c (List.mem_cons_self _ _))

/-- A modifier flag whose last mention is a `key_up` is not pressed afterwards. -/
theorem run_modifiers_last_key_up (T : types) (m : Nat) (calls : List update_call) :
    ∀ e : entry D, last_modifier_event T m calls = some event_type.key_up →
      m ∉ (run T e calls).pressed_modifier_flags_ := by
  induction calls with
  | nil => intro e h; simp [last_modifier_event] at h
  | cons c rest ih =>
    intro e h
    rw [run_cons]
    unfold last_modifier_event at h
    cases hr : last_modifier_event T m rest with
    | some t =>
      rw [hr] at h
      exact ih _ (by rw [hr]; exact h)
    | none =>
      rw [hr] at h
      dsimp only at h
      by_cases hc : modifier_of T c.queued_event = some m
      · rw [if_pos hc] at h
        have ht : c.queued_event.event_type_ = event_type.key_up := Option.some.inj h
        rw [run_modifiers_of_not_mentioned T m rest _ ((last_modifier_event_eq_none T m rest).mp hr),
          update_modifiers, hc, ht]
        exact not_mem_pressed_after_key_up _ _
      · rw [if_neg hc] at h
        cases h

/-- A pointing button whose last mention is a `key_up` is not pressed
afterwards. -/
theorem run_buttons_last_key_up (T : types) (b : Nat) (calls : List update_call) :
    ∀ e : entry D, last_button_event b calls = some event_type.key_up →
      b ∉ (run T e calls).pressed_pointing_buttons_ := by
  induction calls with
  | nil => intro e h; simp [last_button_event] at h
  | cons c rest ih =>
    intro e h
    rw [run_cons]
    unfold last_button_event at h
    cases hr : last_button_event b rest with
    | some t =>
      rw [hr] at h
      exact ih _ (by rw [hr]; exact h)
    | none =>
      rw [hr] at h
      dsimp only at h
      by_cases hc : c.queued_event.pointing_button = some b
      · rw [if_pos hc] at h
        have ht : c.queued_event.event_type_ = event_type.key_up := Option.some.inj h
        rw [run_buttons_of_not_mentioned T b rest _ ((last_button_event_eq_none b rest).mp hr),
          update_buttons, hc, ht]
        exact not_mem_pressed_after_key_up _ _
      · rw [if_neg hc] at h
        cases h

/-- After a non-empty sequence of updates the stored (state, reason) is the one
derived from the final detector and pressed sets. -/
theorem run_state_reason (T : types) (calls : List update_call) (hne : calls ≠ []) :
    ∀ e : entry D, state_reason (run T e calls) =
      derived_state_reason
        (D.is_repeating (run T e calls).keyboard_repeat_detector_)
        (run T e calls).pressed_modifier_flags_
        (run T e calls).pressed_pointing_buttons_ := by
  induction calls with
  | nil => exact absurd rfl hne
  | cons c rest ih =>
    intro e
    rw [run_cons]
    cases rest with
    | nil => exact update_state_reason T e _ _ _
    | cons c2 rest2 => exact ih (List.cons_ne_nil _ _) _

end entry
end krbn

namespace krbn
namespace entry

variable {D : repeat_detector}

theorem derived_state_reason_not_repeating (ms bs : Finset Nat) :
    (derived_state_reason false ms bs).2 ≠
      grabbable_state.ungrabbable_temporarily_reason.key_repeating := by
  by_cases h1 : ms.Nonempty <;> by_cases h2 : bs.Nonempty <;>
    simp [derived_state_reason, h1, h2]

theorem derived_state_reason_idle :
    derived_state_reason false ∅ ∅ =
      (grabbable_state.state.grabbable, grabbable_state.ungrabbable_temporarily_reason.none) := by
  simp [derived_state_reason]

/-- Under the section 4.1 detector a `key_up` of a usage that is not the tracked
one leaves the detector as it is. -/
theorem fed_detector_key_up_untracked (T : types) (r : Option (Nat × Nat)) (q : queued_event)
    (hup : q.event_type_ = event_type.key_up)
    (h : ∀ x, (key_usage T q = some x ∨ consumer_usage T q = some x) → r ≠ some x) :
    fed_detector T keyboard_repeat_detector r q = r := by
  unfold fed_detector
  cases hk : key_usage T q with
  | none =>
    cases hc : consumer_usage T q with
    | none => rfl
    | some y =>
      have hy := h y (Or.inr hc)
      simp [keyboard_repeat_detector, hup, hy]
  | some z =>
    have hz := h z (Or.inl hk)
    cases hc : consumer_usage T q with
    | none => simp [keyboard_repeat_detector, hup, hz]
    | some y =>
      have hy := h y (Or.inr hc)
      simp [keyboard_repeat_detector, hup, hy, hz]

theorem pressed_after_key_up_of_not_mem (s : Finset Nat) (x : Option Nat)
    (h : ∀ a, x = some a → a ∉ s) : pressed_after s x event_type.key_up = s := by
  unfold pressed_after
  cases x with
  | none => rfl
  | some a => simpa using h a rfl

end entry
end krbn

namespace krbn
namespace entry

/-- Scenario A for any repeat detector that does not report repeating after the
`key_down` of the modifier key: the first query is
`ungrabbable_temporarily/modifier_key_pressed`. -/
theorem scenario_A_of_not_repeating (T : types) (D : repeat_detector) (d0 d1 t1 k p u m : Nat)
    (hp : T.make_hid_usage_page k = some p) (hu : T.make_hid_usage k = some u)
    (hm : T.make_modifier_flag p u = some m)
    (hrep : D.is_repeating (D.set D.init p u event_type.key_down) = false) :
    state_reason (update T (mk_entry D d0) d1 t1 ⟨event_type.key_down, some k, none, none⟩) =
      (grabbable_state.state.ungrabbable_temporarily,
        grabbable_state.ungrabbable_temporarily_reason.modifier_key_pressed) := by
  have hk : key_usage T ⟨event_type.key_down, some k, none, none⟩ = some (p, u) := by
    simp [key_usage, hp, hu]
  have hmo : modifier_of T ⟨event_type.key_down, some k, none, none⟩ = some m := by
    simp [modifier_of, hk, hm]
  have hd : (update T (mk_entry D d0) d1 t1
      ⟨event_type.key_down, some k, none, none⟩).keyboard_repeat_detector_ =
      D.set D.init p u event_type.key_down := by
    rw [update_detector]
    simp [fed_detector, hk, consumer_usage, mk_entry]
  rw [update_state_reason, hd, hrep, update_modifiers, hmo]
  simp [pressed_after, derived_state_reason]

end entry
end krbn


/-! ## Lemmas about the stored `grabbable_state` -/

namespace krbn
namespace entry

variable {D : repeat_detector}

theorem grabbable_state_eq_of_fields (g1 g2 : grabbable_state)
    (hid : g1.registry_entry_id_ = g2.registry_entry_id_)
    (hstate : g1.state_ = g2.state_)
    (hreason : g1.ungrabbable_temporarily_reason_ = g2.ungrabbable_temporarily_reason_)
    (htime : g1.time_stamp_ = g2.time_stamp_) : g1 = g2 := by
  cases g1
  cases g2
  simp only [grabbable_state.mk.injEq]
  exact ⟨hid, hstate, hreason, htime⟩

theorem entry_eq_of_fields (e1 e2 : entry D)
    (hd : e1.keyboard_repeat_detector_ = e2.keyboard_repeat_detector_)
    (hm : e1.pressed_modifier_flags_ = e2.pressed_modifier_flags_)
    (hb : e1.pressed_pointing_buttons_ = e2.pressed_pointing_buttons_)
    (hg : e1.grabbable_state_ = e2.grabbable_state_) : e1 = e2 := by
  cases e1
  cases e2
  simp only [entry.mk.injEq]
  exact ⟨hd, hm, hb, hg⟩

theorem update_stamp (T : types) (e : entry D) (d t : Nat) (q : queued_event) :
    (update T e d t q).grabbable_state_.registry_entry_id_ = d ∧
      (update T e d t q).grabbable_state_.time_stamp_ = t := by
  unfold update
  exact update_grabbable_state_stamp _ d t

/-- The priority order only produces pairs in which the reason is set exactly
when the state is `ungrabbable_temporarily`. -/
theorem derived_state_reason_invariant (repeating : Bool) (ms bs : Finset Nat) :
    (derived_state_reason repeating ms bs).2 ≠
        grabbable_state.ungrabbable_temporarily_reason.none ↔
      (derived_state_reason repeating ms bs).1 =
        grabbable_state.state.ungrabbable_temporarily := by
  cases repeating <;> by_cases h1 : ms.Nonempty <;> by_cases h2 : bs.Nonempty <;>
    simp [derived_state_reason, h1, h2]

/-- The priority order only produces the states `grabbable` and
`ungrabbable_temporarily`. -/
theorem derived_state_reason_domain (repeating : Bool) (ms bs : Finset Nat) :
    (derived_state_reason repeating ms bs).1 = grabbable_state.state.grabbable ∨
      (derived_state_reason repeating ms bs).1 =
        grabbable_state.state.ungrabbable_temporarily := by
  cases repeating <;> by_cases h1 : ms.Nonempty <;> by_cases h2 : bs.Nonempty <;>
    simp [derived_state_reason, h1, h2]

theorem run_singleton (T : types) (e : entry D) (c : update_call) :
    run T e [c] = update T e c.registry_entry_id c.time_stamp c.queued_event := rfl

end entry
end krbn

/-! ## Scenario A: key-down and key-up of a modifier key on a fresh entry -/

namespace krbn
namespace entry

/-- Scenario A under the literal reading of section 4.1
(`keyboard_repeat_detector`, which registers every key-down): after the
`key_down` of a key whose usage maps to modifier flag `m` the flag is in the
pressed-modifier set and the stored state is
`ungrabbable_temporarily/key_repeating`; after the `key_up` of the same key it is
`grabbable/none`. -/
theorem scenario_A_of_literal_detector (T : types) (d0 d1 d2 t1 t2 k p u m : Nat)
    (hp : T.make_hid_usage_page k = some p) (hu : T.make_hid_usage k = some u)
    (hm : T.make_modifier_flag p u = some m) :
    m ∈ (update T (mk_entry keyboard_repeat_detector d0) d1 t1
          ⟨event_type.key_down, some k, none, none⟩).pressed_modifier_flags_ ∧
    state_reason
        (update T (mk_entry keyboard_repeat_detector d0) d1 t1
          ⟨event_type.key_down, some k, none, none⟩) =
      (grabbable_state.state.ungrabbable_temporarily,
        grabbable_state.ungrabbable_temporarily_reason.key_repeating) ∧
    state_reason
        (update T
          (update T (mk_entry keyboard_repeat_detector d0) d1 t1
            ⟨event_type.key_down, some k, none, none⟩)
          d2 t2 ⟨event_type.key_up, some k, none, none⟩) =
      (grabbable_state.state.grabbable, grabbable_state.ungrabbable_temporarily_reason.none) := by
  have hk1 : key_usage T ⟨event_type.key_down, some k, none, none⟩ = some (p, u) := by
    simp [key_usage, hp, hu]
  have hk2 : key_usage T ⟨event_type.key_up, some k, none, none⟩ = some (p, u) := by
    simp [key_usage, hp, hu]
  have hm1 : modifier_of T ⟨event_type.key_down, some k, none, none⟩ = some m := by
    simp [modifier_of, hk1, hm]
  have hm2 : modifier_of T ⟨event_type.key_up, some k, none, none⟩ = some m := by
    simp [modifier_of, hk2, hm]
  have hd1 : (update T (mk_entry keyboard_repeat_detector d0) d1 t1
      ⟨event_type.key_down, some k, none, none⟩).keyboard_repeat_detector_ = some (p, u) := by
    rw [update_detector]
    simp [fed_detector, hk1, consumer_usage, keyboard_repeat_detector]
  refine ⟨?_, ?_, ?_⟩
  · rw [update_modifiers, hm1]
    simp [pressed_after]
  · exact update_key_repeating_of_tracked T _ _ _ _ _ hd1
  · rw [update_state_reason, update_detector, update_modifiers,
      update_buttons, hd1, hm2, update_modifiers, update_buttons, hm1]
    have hfed : fed_detector T keyboard_repeat_detector (some (p, u))
        ⟨event_type.key_up, some k, none, none⟩ = none :=
      fed_detector_key_up T (p, u) _ rfl (Or.inl hk2)
    rw [hfed]
    simp [pressed_after, mk_entry, derived_state_reason,
      keyboard_repeat_detector]

end entry
end krbn

/-! ## Lemmas about byte buffers and `char` array members -/

namespace krbn

theorem takeWhile_append_zero (a b : List Nat) :
    (a ++ 0 :: b).takeWhile (fun x => x != 0) = a.takeWhile (fun x => x != 0) := by
  induction a with
  | nil => simp
  | cons x xs ih =>
    by_cases hx : x = 0
    · simp [hx]
    · simp [List.takeWhile_cons, hx, ih]

theorem takeWhile_of_not_mem (a : List Nat) (h : 0 ∉ a) :
    a.takeWhile (fun x => x != 0) = a := by
  induction a with
  | nil => rfl
  | cons x xs ih =>
    simp only [List.mem_cons, not_or] at h
    have hx : x ≠ 0 := fun hx => h.1 hx.symm
    simp [List.takeWhile_cons, hx, ih h.2]

theorem take_drop_set_of_outside (l : List Nat) (k v off m : Nat)
    (h : k < off ∨ off + m ≤ k) :
    ((l.set k v).drop off).take m = (l.drop off).take m := by
  apply List.ext_getElem?
  intro i
  simp only [List.getElem?_take, List.getElem?_drop, List.getElem?_set]
  by_cases h1 : i < m
  · have h2 : ¬ k = off + i := by omega
    simp [h1, h2]
  · simp [h1]

theorem getElem?_set_zero_of_zero (l : List Nat) (k j : Nat) (h : l[j]? = some 0) :
    (l.set k 0)[j]? = some 0 := by
  rw [List.getElem?_set]
  by_cases h1 : k = j
  · subst h1
    have hlt : k < l.length := by
      by_contra hge
      rw [List.getElem?_eq_none (by omega)] at h
      cases h
    simp [hlt]
  · simp [h1, h]

theorem getElem?_set_zero_self (l : List Nat) (k : Nat) (h : k < l.length) :
    (l.set k 0)[k]? = some 0 := by
  simp [List.getElem?_set, h]

theorem takeWhile_drop_of_region (l2 l : List Nat) (off m : Nat)
    (hreg : (l2.drop off).take m = (l.drop off).take m)
    (hzero : l2[off + m]? = some 0) :
    (l2.drop off).takeWhile (fun x => x != 0) =
      ((l.drop off).take m).takeWhile (fun x => x != 0) := by
  have hlt : off + m < l2.length := by
    by_contra hge
    rw [List.getElem?_eq_none (by omega)] at hzero
    cases hzero
  have h0 : l2[off + m] = 0 := by
    rw [List.getElem?_eq_getElem hlt] at hzero
    exact Option.some.inj hzero
  have hsplit : l2.drop off = (l2.drop off).take m ++ 0 :: l2.drop (off + m + 1) := by
    conv_lhs => rw [← List.take_append_drop m (l2.drop off)]
    rw [List.drop_drop, List.drop_eq_getElem_cons hlt, h0]
  rw [hsplit, takeWhile_append_zero, hreg]

theorem field_bytes_take (buffer : List Nat) (f : field) :
    (field_bytes buffer f).take (f.size - 1) = (buffer.drop f.offset).take (f.size - 1) := by
  unfold field_bytes
  rw [List.take_take, Nat.min_eq_left (Nat.sub_le _ _)]

theorem capacity_bounded_string_eq (buffer : List Nat) (f : field) :
    capacity_bounded_string buffer f =
      ((buffer.drop f.offset).take (f.size - 1)).takeWhile (fun b => b != 0) := by
  unfold capacity_bounded_string
  rw [field_bytes_take]
  split_ifs with h
  · rfl
  · exact (takeWhile_of_not_mem _ h).symm

theorem capacity_bounded_string_length (buffer : List Nat) (f : field) :
    (capacity_bounded_string buffer f).length ≤ f.size - 1 := by
  rw [capacity_bounded_string_eq]
  calc (List.takeWhile (fun b => b != 0) ((buffer.drop f.offset).take (f.size - 1))).length
      ≤ ((buffer.drop f.offset).take (f.size - 1)).length :=
        (List.takeWhile_sublist _).length_le
    _ ≤ f.size - 1 := List.length_take_le _ _

/-- A buffer that agrees with `buffer` on the first `size - 1` bytes of member `f`
and holds a zero in the last byte of `f` converts to the capacity-bounded string
of `buffer`. -/
theorem c_string_of_region (buffer2 buffer : List Nat) (f : field)
    (hreg : (buffer2.drop f.offset).take (f.size - 1) =
      (buffer.drop f.offset).take (f.size - 1))
    (hzero : buffer2[f.offset + (f.size - 1)]? = some 0) :
    c_string buffer2 f = capacity_bounded_string buffer f := by
  rw [capacity_bounded_string_eq]
  exact takeWhile_drop_of_region buffer2 buffer f.offset (f.size - 1) hreg hzero

theorem terminate_length (buffer : List Nat) (f : field) :
    (terminate buffer f).length = buffer.length := by
  simp [terminate]

/-- Terminating member `g` leaves the first `size - 1` bytes of member `f`
unchanged when `g` is `f` itself or does not overlap `f`. -/
theorem terminate_region (buffer : List Nat) (f g : field) (hg : 0 < g.size)
    (h : g = f ∨ f.disjoint g) :
    ((terminate buffer g).drop f.offset).take (f.size - 1) =
      (buffer.drop f.offset).take (f.size - 1) := by
  unfold terminate
  apply take_drop_set_of_outside
  rcases h with h | h
  · subst h
    right
    omega
  · unfold field.disjoint at h
    omega

theorem terminate_zero_self (buffer : List Nat) (f : field)
    (hfit : f.offset + (f.size - 1) < buffer.length) :
    (terminate buffer f)[f.offset + (f.size - 1)]? = some 0 := by
  unfold terminate
  exact getElem?_set_zero_self _ _ hfit

theorem terminate_zero_keep (buffer : List Nat) (g : field) (j : Nat)
    (h : buffer[j]? = some 0) : (terminate buffer g)[j]? = some 0 := by
  unfold terminate
  exact getElem?_set_zero_of_zero _ _ _ h

theorem field.disjoint_symm {f g : field} (h : f.disjoint g) : g.disjoint f := by
  unfold field.disjoint at *
  omega

end krbn

/-! ## Lemmas about `receiver::worker` -/

namespace krbn
namespace receiver

theorem worker_iteration_received (W : wire) (s : receiver) (r : receive_result)
    (hec : r.ec = false) (hpos : 0 < r.n) :
    worker_iteration W s r = dispatch W { s with buffer_ := r.buffer } r.n := by
  unfold worker_iteration
  simp [hec, hpos]

theorem worker_iteration_not_received (W : wire) (s : receiver) (r : receive_result)
    (h : r.ec = true ∨ r.n = 0) :
    worker_iteration W s r = { s with buffer_ := r.buffer } := by
  unfold worker_iteration
  rcases h with h | h <;> simp [h]

theorem append_ne_self {α : Type} (l extra : List α) (h : extra ≠ []) : l ++ extra ≠ l := by
  intro heq
  exact h (List.append_right_eq_self.mp heq)

theorem connect_calls_ne_nil (s : receiver) (path pid : List Nat) :
    connect_calls s path pid ≠ [] := by
  unfold connect_calls
  simp

/-- The state after an accepted `connect`, field by field. -/
theorem on_connect_accepted (W : wire) (s : receiver) :
    on_connect W s W.sizeof_connect_struct =
      { buffer_ := terminate s.buffer_ W.user_core_configuration_file_path
        device_grabber_ := some ⟨some
          (c_string (terminate s.buffer_ W.user_core_configuration_file_path)
            W.user_core_configuration_file_path)⟩
        console_user_server_process_monitor_ := some
          ⟨field_bytes (terminate s.buffer_ W.user_core_configuration_file_path) W.pid⟩
        calls := s.calls ++ connect_calls s
          (c_string (terminate s.buffer_ W.user_core_configuration_file_path)
            W.user_core_configuration_file_path)
          (field_bytes (terminate s.buffer_ W.user_core_configuration_file_path) W.pid)
        log := s.log ++ [log_line.info_connected
          (field_bytes (terminate s.buffer_ W.user_core_configuration_file_path) W.pid)] } := by
  unfold on_connect
  rw [if_neg (by simp)]
  cases hg : s.device_grabber_ <;> cases hm : s.console_user_server_process_monitor_ <;>
    simp [reset_device_grabber, make_device_grabber, device_grabber_start,
      reset_process_monitor, make_process_monitor, connect_calls, hg, hm]

theorem on_connect_rejected (W : wire) (s : receiver) (n : Nat)
    (h : n ≠ W.sizeof_connect_struct) :
    on_connect W s n =
      { s with log := s.log ++ [log_line.error_invalid_size operation_type.connect] } := by
  unfold on_connect
  rw [if_pos h]

end receiver
end krbn

/-! ## Strings read after the forced terminations -/

namespace krbn

theorem foldl_terminate_length (gs : List field) :
    ∀ buffer : List Nat, (gs.foldl terminate buffer).length = buffer.length := by
  induction gs with
  | nil => intro buffer; rfl
  | cons g rest ih =>
    intro buffer
    rw [List.foldl_cons, ih, terminate_length]

theorem foldl_terminate_region (f : field) (gs : List field) :
    ∀ buffer : List Nat, (∀ g ∈ gs, 0 < g.size ∧ (g = f ∨ f.disjoint g)) →
      ((gs.foldl terminate buffer).drop f.offset).take (f.size - 1) =
        (buffer.drop f.offset).take (f.size - 1) := by
  induction gs with
  | nil => intro buffer _; rfl
  | cons g rest ih =>
    intro buffer h
    have hg := h g (List.mem_cons_self _ _)
    rw [List.foldl_cons, ih _ (fun g2 h2 => h g2 (List.mem_cons_of_mem _ h2))]
    exact terminate_region buffer f g hg.1 hg.2

theorem foldl_terminate_zero_keep (gs : List field) (j : Nat) :
    ∀ buffer : List Nat, buffer[j]? = some 0 → (gs.foldl terminate buffer)[j]? = some 0 := by
  induction gs with
  | nil => intro buffer h; exact h
  | cons g rest ih =>
    intro buffer h
    rw [List.foldl_cons]
    exact ih _ (terminate_zero_keep buffer g j h)

theorem foldl_terminate_zero (f : field) (gs : List field) :
    ∀ buffer : List Nat, f ∈ gs → f.offset + (f.size - 1) < buffer.length →
      (gs.foldl terminate buffer)[f.offset + (f.size - 1)]? = some 0 := by
  induction gs with
  | nil => intro buffer h _; cases h
  | cons g rest ih =>
    intro buffer hmem hfit
    rw [List.foldl_cons]
    by_cases hgf : g = f
    · subst hgf
      exact foldl_terminate_zero_keep rest _ _ (terminate_zero_self buffer g hfit)
    · have hrest : f ∈ rest := by
        rcases List.mem_cons.mp hmem with h | h
        · exact absurd h.symm hgf
        · exact h
      exact ih _ hrest (by rw [terminate_length]; exact hfit)

/-- After the forced terminations of members `gs`, each of which is `f` or does not
overlap `f`, the string read from member `f` is the capacity-bounded string of
the buffer as received. -/
theorem c_string_after_terminations (f : field) (gs : List field) (buffer : List Nat)
    (hgs : ∀ g ∈ gs, 0 < g.size ∧ (g = f ∨ f.disjoint g)) (hmem : f ∈ gs)
    (hfit : f.offset + (f.size - 1) < buffer.length) :
    c_string (gs.foldl terminate buffer) f = capacity_bounded_string buffer f :=
  c_string_of_region _ _ f (foldl_terminate_region f gs buffer hgs)
    (foldl_terminate_zero f gs buffer hmem hfit)

theorem field.fits_last_lt {f : field} {sizeof_struct n len : Nat}
    (h : f.fits sizeof_struct) (hn : sizeof_struct ≤ n) (hlen : n ≤ len) :
    f.offset + (f.size - 1) < len := by
  unfold field.fits at h
  omega

end krbn

/-! ## Live objects along a trace -/

namespace krbn
namespace receiver

/-- The number of live objects after any prefix of a trace is bounded by the peak
of the whole trace. -/
theorem live_after_take_le_peak_live (is_ctor is_dtor : call → Bool) (trace : List call) :
    ∀ (live k : Nat),
      live_after is_ctor is_dtor live (trace.take k) ≤ peak_live is_ctor is_dtor live trace := by
  induction trace with
  | nil =>
    intro live k
    simp [live_after, peak_live]
  | cons c rest ih =>
    intro live k
    cases k with
    | zero => simp [live_after, peak_live]
    | succ k =>
      rw [List.take_succ_cons]
      unfold live_after peak_live
      exact le_trans (ih _ k) (le_max_right _ _)

/-- The trace of an accepted `connect` on a receiver that already owns a device
grabber and a process monitor. -/
theorem connect_calls_of_owned (s : receiver) (g : device_grabber) (m : process_monitor)
    (hg : s.device_grabber_ = some g) (hm : s.console_user_server_process_monitor_ = some m)
    (path pid : List Nat) :
    connect_calls s path pid =
      [call.device_grabber_dtor, call.device_grabber_ctor, call.device_grabber_start path,
        call.process_monitor_dtor m.pid, call.process_monitor_ctor pid] := by
  simp [connect_calls, hg, hm]

theorem worker_iteration_connect_accepted (W : wire) (s : receiver) (r : receive_result)
    (hec : r.ec = false) (hpos : 0 < r.n)
    (htag : W.cast (r.buffer.getD 0 0) = operation_type.connect)
    (hn : r.n = W.sizeof_connect_struct) :
    worker_iteration W s r =
      on_connect W { s with buffer_ := r.buffer } W.sizeof_connect_struct := by
  rw [worker_iteration_received W s r hec hpos, ← hn]
  unfold dispatch
  simp only [htag]

end receiver
end krbn

namespace krbn
namespace receiver

/-- Along the calls of two accepted `connect` datagrams at most one device grabber
and at most one process monitor are live at any time, and one of each is live at
the end. -/
theorem connect_twice_live (s : receiver) (path1 pid1 path2 pid2 : List Nat) :
    peak_live is_device_grabber_ctor is_device_grabber_dtor (owned s.device_grabber_)
      (connect_calls s path1 pid1 ++
        [call.device_grabber_dtor, call.device_grabber_ctor, call.device_grabber_start path2,
          call.process_monitor_dtor pid1, call.process_monitor_ctor pid2]) ≤ 1 ∧
    peak_live is_process_monitor_ctor is_process_monitor_dtor
      (owned s.console_user_server_process_monitor_)
      (connect_calls s path1 pid1 ++
        [call.device_grabber_dtor, call.device_grabber_ctor, call.device_grabber_start path2,
          call.process_monitor_dtor pid1, call.process_monitor_ctor pid2]) ≤ 1 ∧
    live_after is_device_grabber_ctor is_device_grabber_dtor (owned s.device_grabber_)
      (connect_calls s path1 pid1 ++
        [call.device_grabber_dtor, call.device_grabber_ctor, call.device_grabber_start path2,
          call.process_monitor_dtor pid1, call.process_monitor_ctor pid2]) = 1 ∧
    live_after is_process_monitor_ctor is_process_monitor_dtor
      (owned s.console_user_server_process_monitor_)
      (connect_calls s path1 pid1 ++
        [call.device_grabber_dtor, call.device_grabber_ctor, call.device_grabber_start path2,
          call.process_monitor_dtor pid1, call.process_monitor_ctor pid2]) = 1 := by
  cases hg : s.device_grabber_ <;> cases hm : s.console_user_server_process_monitor_ <;>
    simp [connect_calls, peak_live, live_after, owned, is_device_grabber_ctor,
      is_device_grabber_dtor, is_process_monitor_ctor, is_process_monitor_dtor, hg, hm]

end receiver
end krbn

/-! ## Lemmas about the exit callback and about failed receives -/

namespace krbn
namespace receiver

/-- The exit callback on a receiver that owns a device grabber: the grabber is
destroyed; when the system configuration file exists a new one is constructed
and started against it. -/
theorem console_user_server_exit_callback_of_owned (s : receiver) (g : device_grabber)
    (hg : s.device_grabber_ = some g) (system_core_configuration_file_path : List Nat) :
    console_user_server_exit_callback system_core_configuration_file_path true s =
      { s with device_grabber_ := some ⟨some system_core_configuration_file_path⟩,
               calls := s.calls ++
                 [call.device_grabber_dtor, call.device_grabber_ctor,
                   call.device_grabber_start system_core_configuration_file_path] } ∧
    console_user_server_exit_callback system_core_configuration_file_path false s =
      { s with device_grabber_ := none, calls := s.calls ++ [call.device_grabber_dtor] } := by
  constructor <;>
    simp [console_user_server_exit_callback,
      start_grabbing_if_system_core_configuration_file_exists, reset_device_grabber,
      make_device_grabber, device_grabber_start, hg]

theorem worker_loop_cons (W : wire) (exit_loop : Bool) (r : receive_result)
    (rest : List (Bool × receive_result)) (s : receiver) :
    worker_loop W ((exit_loop, r) :: rest) s =
      if exit_loop = true then s else worker_loop W rest (worker_iteration W s r) := rfl

/-- A run of receives that all fail or time out, with the stop flag unset, leaves
the loop running on the rest of the schedule with nothing but the buffer
changed. -/
theorem worker_loop_failed_receives (W : wire) (rest : List (Bool × receive_result))
    (schedule : List (Bool × receive_result)) :
    ∀ s : receiver,
      (∀ x ∈ schedule, x.1 = false ∧ (x.2.ec = true ∨ x.2.n = 0)) →
      ∃ s2 : receiver, worker_loop W (schedule ++ rest) s = worker_loop W rest s2 ∧
        s2.calls = s.calls ∧ s2.device_grabber_ = s.device_grabber_ ∧
        s2.console_user_server_process_monitor_ = s.console_user_server_process_monitor_ ∧
        s2.log = s.log := by
  induction schedule with
  | nil => intro s _; exact ⟨s, rfl, rfl, rfl, rfl, rfl⟩
  | cons x xs ih =>
    intro s h
    obtain ⟨exit_loop, r⟩ := x
    have hx := h (exit_loop, r) (List.mem_cons_self _ _)
    have hexit : exit_loop = false := hx.1
    obtain ⟨s2, h2, hc, hg, hm, hl⟩ :=
      ih { s with buffer_ := r.buffer } (fun y hy => h y (List.mem_cons_of_mem _ hy))
    refine ⟨s2, ?_, hc, hg, hm, hl⟩
    rw [List.cons_append]
    rw [worker_loop_cons, hexit, if_neg (by decide), worker_iteration_not_received W s r hx.2]
    exact h2

end receiver
end krbn

/-! ## Theorems about `entry` -/

namespace krbn

/-- C1 (priority order of `entry::update`).  For every entry, device id, time
stamp and event, the (state, reason) stored by `update` is the value that the
fixed priority order assigns to the post-event repeat detector and pressed
sets: `ungrabbable_temporarily/key_repeating` if the detector reports repeating,
else `ungrabbable_temporarily/modifier_key_pressed` if the modifier set is
non-empty, else `ungrabbable_temporarily/pointing_button_pressed` if the button
set is non-empty, else `grabbable/none`.  It holds for every implementation of
the repeat detector and every conversion table. -/
theorem C1_update_priority_order (T : types) (D : repeat_detector) (e : entry D)
    (registry_entry_id time_stamp : Nat) (q : queued_event) :
    entry.state_reason (entry.update T e registry_entry_id time_stamp q) =
      (if D.is_repeating
            (entry.update T e registry_entry_id time_stamp q).keyboard_repeat_detector_ = true then
          (grabbable_state.state.ungrabbable_temporarily,
            grabbable_state.ungrabbable_temporarily_reason.key_repeating)
        else if (entry.update T e registry_entry_id time_stamp q).pressed_modifier_flags_.Nonempty then
          (grabbable_state.state.ungrabbable_temporarily,
            grabbable_state.ungrabbable_temporarily_reason.modifier_key_pressed)
        else if (entry.update T e registry_entry_id time_stamp q).pressed_pointing_buttons_.Nonempty then
          (grabbable_state.state.ungrabbable_temporarily,
            grabbable_state.ungrabbable_temporarily_reason.pointing_button_pressed)
        else
          (grabbable_state.state.grabbable,
            grabbable_state.ungrabbable_temporarily_reason.none)) := by
  rw [entry.update_state_reason]
  rfl

/-- C3 (a held key means `key_repeating`, with the section 4.1 detector).  For
every entry and every `key_down` event that feeds the repeat detector a keyboard
or consumer usage, `update` stores `ungrabbable_temporarily/key_repeating` and the
detector tracks a usage `x` carried by the event.  After every further sequence
of updates that contains neither a `key_up` of `x` nor a `key_down` of another
usage, the stored state is still `ungrabbable_temporarily/key_repeating`; and an
`update` with the `key_up` of `x` then clears the repeating flag and stores a
reason other than `key_repeating`. -/
theorem C3_held_key_is_key_repeating (T : types) (e : entry keyboard_repeat_detector)
    (d t : Nat) (q : queued_event)
    (hdown : q.event_type_ = event_type.key_down)
    (hfeeds : entry.key_usage T q ≠ none ∨ entry.consumer_usage T q ≠ none) :
    entry.state_reason (entry.update T e d t q) =
      (grabbable_state.state.ungrabbable_temporarily,
        grabbable_state.ungrabbable_temporarily_reason.key_repeating) ∧
    ∃ x : Nat × Nat,
      (entry.update T e d t q).keyboard_repeat_detector_ = some x ∧
      (entry.key_usage T q = some x ∨ entry.consumer_usage T q = some x) ∧
      ∀ calls : List entry.update_call,
        (∀ c ∈ calls,
          ¬ (c.queued_event.event_type_ = event_type.key_up ∧
              (entry.key_usage T c.queued_event = some x ∨
                entry.consumer_usage T c.queued_event = some x)) ∧
          ¬ (c.queued_event.event_type_ = event_type.key_down ∧
              ∃ y, (entry.key_usage T c.queued_event = some y ∨
                entry.consumer_usage T c.queued_event = some y) ∧ y ≠ x)) →
        entry.state_reason (entry.run T (entry.update T e d t q) calls) =
          (grabbable_state.state.ungrabbable_temporarily,
            grabbable_state.ungrabbable_temporarily_reason.key_repeating) ∧
        ∀ (d2 t2 : Nat) (q2 : queued_event),
          q2.event_type_ = event_type.key_up →
          (entry.key_usage T q2 = some x ∨ entry.consumer_usage T q2 = some x) →
          keyboard_repeat_detector.is_repeating
              (entry.update T (entry.run T (entry.update T e d t q) calls) d2 t2
                q2).keyboard_repeat_detector_ = false ∧
            (entry.get_grabbable_state
              (entry.update T (entry.run T (entry.update T e d t q) calls) d2 t2
                q2)).ungrabbable_temporarily_reason_ ≠
              grabbable_state.ungrabbable_temporarily_reason.key_repeating := by
  obtain ⟨x, hx, hfx⟩ :=
    entry.fed_detector_key_down T e.keyboard_repeat_detector_ q hdown hfeeds
  have hd : (entry.update T e d t q).keyboard_repeat_detector_ = some x := by
    rw [entry.update_detector]; exact hx
  have hs := entry.update_key_repeating_of_tracked T e d t q x hd
  refine ⟨hs, x, hd, hfx, ?_⟩
  intro calls hquiet
  obtain ⟨hrd, hrs⟩ := entry.run_quiet T x calls _ hd hs hquiet
  refine ⟨hrs, ?_⟩
  intro d2 t2 q2 hup hf2
  have hcleared : (entry.update T (entry.run T (entry.update T e d t q) calls) d2 t2
      q2).keyboard_repeat_detector_ = none := by
    rw [entry.update_detector, hrd]
    exact entry.fed_detector_key_up T x q2 hup hf2
  refine ⟨by rw [hcleared]; rfl, ?_⟩
  have h2 := entry.update_state_reason T (entry.run T (entry.update T e d t q) calls) d2 t2 q2
  rw [hcleared] at h2
  have h3 := congrArg Prod.snd h2
  unfold entry.get_grabbable_state
  unfold entry.state_reason at h3
  dsimp only at h3
  rw [h3]
  exact entry.derived_state_reason_not_repeating _ _

/-- Witness of C3 at the sample table: key code 4 goes down on a fresh entry; a
pointing button is pressed and the `key_up` of key code 5 arrives, and the state
is still `key_repeating`; then key code 4 goes up and the reason is no longer
`key_repeating`. -/
theorem C3_held_key_is_key_repeating_witness :
    ((⟨event_type.key_down, some 4, none, none⟩ : queued_event).event_type_ =
        event_type.key_down ∧
      (entry.key_usage sample_types ⟨event_type.key_down, some 4, none, none⟩ ≠ none ∨
        entry.consumer_usage sample_types ⟨event_type.key_down, some 4, none, none⟩ ≠ none)) ∧
    entry.state_reason
        (entry.update sample_types (entry.mk_entry keyboard_repeat_detector 3) 3 100
          ⟨event_type.key_down, some 4, none, none⟩) =
      (grabbable_state.state.ungrabbable_temporarily,
        grabbable_state.ungrabbable_temporarily_reason.key_repeating) ∧
    entry.state_reason
        (entry.run sample_types
          (entry.update sample_types (entry.mk_entry keyboard_repeat_detector 3) 3 100
            ⟨event_type.key_down, some 4, none, none⟩) sample_quiet) =
      (grabbable_state.state.ungrabbable_temporarily,
        grabbable_state.ungrabbable_temporarily_reason.key_repeating) ∧
    (entry.get_grabbable_state
        (entry.update sample_types
          (entry.run sample_types
            (entry.update sample_types (entry.mk_entry keyboard_repeat_detector 3) 3 100
              ⟨event_type.key_down, some 4, none, none⟩) sample_quiet)
          3 103 ⟨event_type.key_up, some 4, none, none⟩)).ungrabbable_temporarily_reason_ ≠
      grabbable_state.ungrabbable_temporarily_reason.key_repeating := by
  obtain ⟨hs, x, _, hfx, hall⟩ :=
    C3_held_key_is_key_repeating sample_types (entry.mk_entry keyboard_repeat_detector 3) 3 100
      ⟨event_type.key_down, some 4, none, none⟩ rfl (Or.inl (by decide))
  have hx : x = (7, 4) := by
    rcases hfx with h | h
    · have h2 : some ((7, 4) : Nat × Nat) = some x := h
      exact (Option.some.inj h2).symm
    · have h2 : (none : Option (Nat × Nat)) = some x := h
      cases h2
  subst hx
  have hq := hall sample_quiet (by
    intro c hc
    simp only [sample_quiet, List.mem_cons, List.mem_singleton, List.not_mem_nil, or_false] at hc
    rcases hc with rfl | rfl <;>
      simp [entry.key_usage, entry.consumer_usage, sample_types])
  exact ⟨⟨rfl, Or.inl (by decide)⟩, hs, hq.1,
    (hq.2 3 103 ⟨event_type.key_up, some 4, none, none⟩ rfl (Or.inl rfl)).2⟩

/-- C4 (release of everything yields grabbable).  For every non-empty finite
sequence of `update` calls applied to a freshly constructed entry: if for every
modifier flag and every pointing button mentioned in the sequence the last call
mentioning it is a `key_up`, and the repeat detector does not report repeating
after the last call, then the stored state is `grabbable/none`.  It holds for
every implementation of the repeat detector. -/
theorem C4_release_of_everything_yields_grabbable (T : types) (D : repeat_detector)
    (registry_entry_id : Nat) (calls : List entry.update_call)
    (hne : calls ≠ [])
    (hmods : ∀ m, (∃ c ∈ calls, entry.modifier_of T c.queued_event = some m) →
      entry.last_modifier_event T m calls = some event_type.key_up)
    (hbuttons : ∀ b, (∃ c ∈ calls, c.queued_event.pointing_button = some b) →
      entry.last_button_event b calls = some event_type.key_up)
    (hrepeat : D.is_repeating
      (entry.run T (entry.mk_entry D registry_entry_id) calls).keyboard_repeat_detector_ = false) :
    entry.state_reason (entry.run T (entry.mk_entry D registry_entry_id) calls) =
      (grabbable_state.state.grabbable, grabbable_state.ungrabbable_temporarily_reason.none) := by
  have hm : (entry.run T (entry.mk_entry D registry_entry_id) calls).pressed_modifier_flags_ = ∅ := by
    rw [Finset.eq_empty_iff_forall_not_mem]
    intro m hmem
    by_cases hex : ∃ c ∈ calls, entry.modifier_of T c.queued_event = some m
    · exact entry.run_modifiers_last_key_up T m calls _ (hmods m hex) hmem
    · have hno : ∀ c ∈ calls, entry.modifier_of T c.queued_event ≠ some m :=
        fun c hc h => hex ⟨c, hc, h⟩
      rw [entry.run_modifiers_of_not_mentioned T m calls _ hno] at hmem
      simp [entry.mk_entry] at hmem
  have hb : (entry.run T (entry.mk_entry D registry_entry_id) calls).pressed_pointing_buttons_ = ∅ := by
    rw [Finset.eq_empty_iff_forall_not_mem]
    intro b hmem
    by_cases hex : ∃ c ∈ calls, c.queued_event.pointing_button = some b
    · exact entry.run_buttons_last_key_up T b calls _ (hbuttons b hex) hmem
    · have hno : ∀ c ∈ calls, c.queued_event.pointing_button ≠ some b :=
        fun c hc h => hex ⟨c, hc, h⟩
      rw [entry.run_buttons_of_not_mentioned T b calls _ hno] at hmem
      simp [entry.mk_entry] at hmem
  rw [entry.run_state_reason T calls hne, hrepeat, hm, hb]
  exact entry.derived_state_reason_idle

/-- Witness of C4 on the sample sequence (caps lock down, button down, caps lock
up, button up) with a detector that never reports repeating. -/
theorem C4_release_of_everything_yields_grabbable_witness :
    (sample_press_release ≠ [] ∧
      (∀ m, (∃ c ∈ sample_press_release,
          entry.modifier_of sample_types c.queued_event = some m) →
        entry.last_modifier_event sample_types m sample_press_release =
          some event_type.key_up) ∧
      (∀ b, (∃ c ∈ sample_press_release, c.queued_event.pointing_button = some b) →
        entry.last_button_event b sample_press_release = some event_type.key_up) ∧
      silent_detector.is_repeating
        (entry.run sample_types (entry.mk_entry silent_detector 3)
          sample_press_release).keyboard_repeat_detector_ = false) ∧
    entry.state_reason
        (entry.run sample_types (entry.mk_entry silent_detector 3) sample_press_release) =
      (grabbable_state.state.grabbable, grabbable_state.ungrabbable_temporarily_reason.none) := by
  have hmods : ∀ m, (∃ c ∈ sample_press_release,
      entry.modifier_of sample_types c.queued_event = some m) →
      entry.last_modifier_event sample_types m sample_press_release =
        some event_type.key_up := by
    intro m hex
    obtain ⟨c, hc, hm⟩ := hex
    simp only [sample_press_release, List.mem_cons, List.mem_singleton, List.not_mem_nil,
      or_false] at hc
    rcases hc with rfl | rfl | rfl | rfl
    · have h1 : some 1 = some m := hm
      cases h1
      decide
    · have h1 : (none : Option Nat) = some m := hm
      cases h1
    · have h1 : some 1 = some m := hm
      cases h1
      decide
    · have h1 : (none : Option Nat) = some m := hm
      cases h1
  have hbuttons : ∀ b, (∃ c ∈ sample_press_release, c.queued_event.pointing_button = some b) →
      entry.last_button_event b sample_press_release = some event_type.key_up := by
    intro b hex
    obtain ⟨c, hc, hb⟩ := hex
    simp only [sample_press_release, List.mem_cons, List.mem_singleton, List.not_mem_nil,
      or_false] at hc
    rcases hc with rfl | rfl | rfl | rfl
    · cases hb
    · cases hb
      decide
    · cases hb
    · cases hb
      decide
  exact ⟨⟨by decide, hmods, hbuttons, rfl⟩,
    C4_release_of_everything_yields_grabbable sample_types silent_detector 3
      sample_press_release (by decide) hmods hbuttons rfl⟩

/-- C5 (idempotence of release, with the section 4.1 detector).  For every entry
whose stored state was produced by `update`, and every `key_up` event whose
modifier flag (if any) is not in the pressed-modifier set, whose pointing button
(if any) is not in the pressed-button set and whose usages are not the one
tracked by the repeat detector, `update` leaves both pressed sets and the
detector as they are and stores the same (state, reason) as before; the device
id and time stamp stored are those of the call. -/
theorem C5_release_is_idempotent (T : types) (e0 : entry keyboard_repeat_detector)
    (d0 t0 : Nat) (q0 : queued_event) (d t : Nat) (q : queued_event)
    (hup : q.event_type_ = event_type.key_up)
    (hmod : ∀ m, entry.modifier_of T q = some m →
      m ∉ (entry.update T e0 d0 t0 q0).pressed_modifier_flags_)
    (hbutton : ∀ b, q.pointing_button = some b →
      b ∉ (entry.update T e0 d0 t0 q0).pressed_pointing_buttons_)
    (htracked : ∀ x, (entry.key_usage T q = some x ∨ entry.consumer_usage T q = some x) →
      (entry.update T e0 d0 t0 q0).keyboard_repeat_detector_ ≠ some x) :
    (entry.update T (entry.update T e0 d0 t0 q0) d t q).pressed_modifier_flags_ =
        (entry.update T e0 d0 t0 q0).pressed_modifier_flags_ ∧
    (entry.update T (entry.update T e0 d0 t0 q0) d t q).pressed_pointing_buttons_ =
        (entry.update T e0 d0 t0 q0).pressed_pointing_buttons_ ∧
    (entry.update T (entry.update T e0 d0 t0 q0) d t q).keyboard_repeat_detector_ =
        (entry.update T e0 d0 t0 q0).keyboard_repeat_detector_ ∧
    entry.state_reason (entry.update T (entry.update T e0 d0 t0 q0) d t q) =
        entry.state_reason (entry.update T e0 d0 t0 q0) ∧
    (entry.update T (entry.update T e0 d0 t0 q0) d t q).grabbable_state_.registry_entry_id_ = d ∧
    (entry.update T (entry.update T e0 d0 t0 q0) d t q).grabbable_state_.time_stamp_ = t := by
  have h1 : (entry.update T (entry.update T e0 d0 t0 q0) d t q).pressed_modifier_flags_ =
      (entry.update T e0 d0 t0 q0).pressed_modifier_flags_ := by
    rw [entry.update_modifiers T (entry.update T e0 d0 t0 q0), hup]
    exact entry.pressed_after_key_up_of_not_mem _ _ hmod
  have h2 : (entry.update T (entry.update T e0 d0 t0 q0) d t q).pressed_pointing_buttons_ =
      (entry.update T e0 d0 t0 q0).pressed_pointing_buttons_ := by
    rw [entry.update_buttons T (entry.update T e0 d0 t0 q0), hup]
    exact entry.pressed_after_key_up_of_not_mem _ _ hbutton
  have h3 : (entry.update T (entry.update T e0 d0 t0 q0) d t q).keyboard_repeat_detector_ =
      (entry.update T e0 d0 t0 q0).keyboard_repeat_detector_ := by
    rw [entry.update_detector T (entry.update T e0 d0 t0 q0)]
    exact entry.fed_detector_key_up_untracked T _ q hup htracked
  refine ⟨h1, h2, h3, ?_, ?_⟩
  · rw [entry.update_state_reason T (entry.update T e0 d0 t0 q0), h1, h2, h3,
      ← entry.update_state_reason]
  · exact entry.update_grabbable_state_stamp _ d t

/-- Witness of C5 at the sample table: after a pointing button went down on
device 3, the `key_up` of key code 4 (never pressed, not a modifier) arrives with
device id 8 and time stamp 200. -/
theorem C5_release_is_idempotent_witness :
    ((⟨event_type.key_up, some 4, none, none⟩ : queued_event).event_type_ = event_type.key_up ∧
      entry.modifier_of sample_types ⟨event_type.key_up, some 4, none, none⟩ = none ∧
      (⟨event_type.key_up, some 4, none, none⟩ : queued_event).pointing_button = none ∧
      (entry.update sample_types (entry.mk_entry keyboard_repeat_detector 3) 3 100
        ⟨event_type.key_down, none, none, some 1⟩).keyboard_repeat_detector_ = none) ∧
    entry.state_reason
        (entry.update sample_types
          (entry.update sample_types (entry.mk_entry keyboard_repeat_detector 3) 3 100
            ⟨event_type.key_down, none, none, some 1⟩)
          8 200 ⟨event_type.key_up, some 4, none, none⟩) =
      (grabbable_state.state.ungrabbable_temporarily,
        grabbable_state.ungrabbable_temporarily_reason.pointing_button_pressed) ∧
    (entry.update sample_types
          (entry.update sample_types (entry.mk_entry keyboard_repeat_detector 3) 3 100
            ⟨event_type.key_down, none, none, some 1⟩)
          8 200 ⟨event_type.key_up, some 4, none, none⟩).grabbable_state_ =
      ⟨8, grabbable_state.state.ungrabbable_temporarily,
        grabbable_state.ungrabbable_temporarily_reason.pointing_button_pressed, 200⟩ := by
  have h := C5_release_is_idempotent sample_types (entry.mk_entry keyboard_repeat_detector 3)
    3 100 ⟨event_type.key_down, none, none, some 1⟩ 8 200
    ⟨event_type.key_up, some 4, none, none⟩ rfl
    (by intro m hm; have h1 : (none : Option Nat) = some m := hm; cases h1)
    (by intro b hb; cases hb)
    (by intro x _ hx; have h1 : (none : Option (Nat × Nat)) = some x := hx; cases h1)
  refine ⟨⟨rfl, by decide, rfl, rfl⟩, ?_, by decide⟩
  rw [h.2.2.2.1]
  decide

/-- C13 (invariant of the stored `grabbable_state`).  For every entry reached from
construction by any finite sequence of `update` calls, the empty sequence
included, the stored reason differs from `none` if and only if the stored state
is `ungrabbable_temporarily`.  It holds for every implementation of the repeat
detector. -/
theorem C13_reason_iff_ungrabbable_temporarily (T : types) (D : repeat_detector)
    (registry_entry_id : Nat) (calls : List entry.update_call) :
    (entry.get_grabbable_state
        (entry.run T (entry.mk_entry D registry_entry_id) calls)).ungrabbable_temporarily_reason_ ≠
        grabbable_state.ungrabbable_temporarily_reason.none ↔
      (entry.get_grabbable_state
        (entry.run T (entry.mk_entry D registry_entry_id) calls)).state_ =
        grabbable_state.state.ungrabbable_temporarily := by
  cases calls with
  | nil => simp [entry.run_nil, entry.mk_entry, entry.get_grabbable_state]
  | cons c rest =>
    have h := entry.run_state_reason T (c :: rest) (List.cons_ne_nil _ _)
      (entry.mk_entry D registry_entry_id)
    have h1 := congrArg Prod.fst h
    have h2 := congrArg Prod.snd h
    unfold entry.state_reason at h1 h2
    dsimp only at h1 h2
    unfold entry.get_grabbable_state
    rw [h1, h2]
    exact entry.derived_state_reason_invariant _ _ _

/-- C14 as stated fails: the state of a freshly constructed entry, as returned by
`get_grabbable_state()`, is `none`, which is neither `grabbable` nor
`ungrabbable_temporarily`. -/
theorem C14_state_domain_counterexample :
    (entry.get_grabbable_state (entry.mk_entry keyboard_repeat_detector 3)).state_ =
        grabbable_state.state.none ∧
    ¬ ((entry.get_grabbable_state (entry.mk_entry keyboard_repeat_detector 3)).state_ =
          grabbable_state.state.grabbable ∨
        (entry.get_grabbable_state (entry.mk_entry keyboard_repeat_detector 3)).state_ =
          grabbable_state.state.ungrabbable_temporarily) := by
  decide

/-- C14 amended (state domain).  For every entry reached from construction by a
non-empty finite sequence of `update` calls, the state returned by
`get_grabbable_state()` is `grabbable` or `ungrabbable_temporarily`; a freshly
constructed entry that has seen no event has state `none`, with reason `none`
and time stamp `0`.  It holds for every implementation of the repeat detector. -/
theorem C14_state_domain_amended (T : types) (D : repeat_detector)
    (registry_entry_id : Nat) (calls : List entry.update_call) (hne : calls ≠ []) :
    ((entry.get_grabbable_state
          (entry.run T (entry.mk_entry D registry_entry_id) calls)).state_ =
        grabbable_state.state.grabbable ∨
      (entry.get_grabbable_state
          (entry.run T (entry.mk_entry D registry_entry_id) calls)).state_ =
        grabbable_state.state.ungrabbable_temporarily) ∧
    (entry.get_grabbable_state (entry.mk_entry D registry_entry_id)).state_ =
      grabbable_state.state.none ∧
    (entry.get_grabbable_state
        (entry.mk_entry D registry_entry_id)).ungrabbable_temporarily_reason_ =
      grabbable_state.ungrabbable_temporarily_reason.none ∧
    (entry.get_grabbable_state (entry.mk_entry D registry_entry_id)).time_stamp_ = 0 := by
  refine ⟨?_, rfl, rfl, rfl⟩
  have h := entry.run_state_reason T calls hne (entry.mk_entry D registry_entry_id)
  have h1 := congrArg Prod.fst h
  unfold entry.state_reason at h1
  dsimp only at h1
  unfold entry.get_grabbable_state
  rw [h1]
  exact entry.derived_state_reason_domain _ _ _

/-- Witness of C14 amended on the sample sequence (caps lock down, button down,
caps lock up, button up): the final state is in the domain, and the fresh
entry holds `none`, `none` and `0`. -/
theorem C14_state_domain_amended_witness :
    sample_press_release ≠ [] ∧
    ((entry.get_grabbable_state
          (entry.run sample_types (entry.mk_entry keyboard_repeat_detector 3)
            sample_press_release)).state_ = grabbable_state.state.grabbable ∨
      (entry.get_grabbable_state
          (entry.run sample_types (entry.mk_entry keyboard_repeat_detector 3)
            sample_press_release)).state_ = grabbable_state.state.ungrabbable_temporarily) ∧
    (entry.get_grabbable_state (entry.mk_entry keyboard_repeat_detector 3)).state_ =
      grabbable_state.state.none ∧
    (entry.get_grabbable_state
        (entry.mk_entry keyboard_repeat_detector 3)).ungrabbable_temporarily_reason_ =
      grabbable_state.ungrabbable_temporarily_reason.none ∧
    (entry.get_grabbable_state (entry.mk_entry keyboard_repeat_detector 3)).time_stamp_ = 0 :=
  ⟨by decide,
    C14_state_domain_amended sample_types keyboard_repeat_detector 3 sample_press_release
      (by decide)⟩

/-- C15 (stamping).  For every entry, device id `d`, time stamp `t` and event of
any type, carrying any or no key code, consumer key code or pointing button,
the `grabbable_state` stored by `update(d, t, event)` has time stamp `t` and
device id `d`, whichever of the four branches is taken and whatever id the entry
held before.  It holds for every implementation of the repeat detector. -/
theorem C15_update_stamps (T : types) (D : repeat_detector) (e : entry D)
    (d t : Nat) (q : queued_event) :
    (entry.get_grabbable_state (entry.update T e d t q)).time_stamp_ = t ∧
    (entry.get_grabbable_state (entry.update T e d t q)).registry_entry_id_ = d := by
  unfold entry.get_grabbable_state
  exact ⟨(entry.update_stamp T e d t q).2, (entry.update_stamp T e d t q).1⟩

/-- C17 (an external override does not survive the next event).  For every entry
`e`, every `grabbable_state` `g` and every `d`, `t` and event, `update` applied
after `set_grabbable_state(g)` yields the same entry, hence the same stored
`grabbable_state`, as `update` applied to `e` itself; `set_grabbable_state`
makes `get_grabbable_state()` return `g` and leaves the repeat detector, the
pressed-modifier set and the pressed-button set unchanged. -/
theorem C17_override_does_not_survive_update (T : types) (D : repeat_detector) (e : entry D)
    (g : grabbable_state) (d t : Nat) (q : queued_event) :
    entry.get_grabbable_state (entry.update T (entry.set_grabbable_state e g) d t q) =
      entry.get_grabbable_state (entry.update T e d t q) ∧
    entry.update T (entry.set_grabbable_state e g) d t q = entry.update T e d t q ∧
    entry.get_grabbable_state (entry.set_grabbable_state e g) = g ∧
    (entry.set_grabbable_state e g).keyboard_repeat_detector_ = e.keyboard_repeat_detector_ ∧
    (entry.set_grabbable_state e g).pressed_modifier_flags_ = e.pressed_modifier_flags_ ∧
    (entry.set_grabbable_state e g).pressed_pointing_buttons_ =
      e.pressed_pointing_buttons_ := by
  have hd : (entry.update T (entry.set_grabbable_state e g) d t q).keyboard_repeat_detector_ =
      (entry.update T e d t q).keyboard_repeat_detector_ := by
    rw [entry.update_detector, entry.update_detector]
    rfl
  have hm : (entry.update T (entry.set_grabbable_state e g) d t q).pressed_modifier_flags_ =
      (entry.update T e d t q).pressed_modifier_flags_ := by
    rw [entry.update_modifiers, entry.update_modifiers]
    rfl
  have hb : (entry.update T (entry.set_grabbable_state e g) d t q).pressed_pointing_buttons_ =
      (entry.update T e d t q).pressed_pointing_buttons_ := by
    rw [entry.update_buttons, entry.update_buttons]
    rfl
  have hsr : entry.state_reason (entry.update T (entry.set_grabbable_state e g) d t q) =
      entry.state_reason (entry.update T e d t q) := by
    rw [entry.update_state_reason, entry.update_state_reason T e, hd, hm, hb]
  have hg : (entry.update T (entry.set_grabbable_state e g) d t q).grabbable_state_ =
      (entry.update T e d t q).grabbable_state_ := by
    apply entry.grabbable_state_eq_of_fields
    · rw [(entry.update_stamp T _ d t q).1, (entry.update_stamp T e d t q).1]
    · exact congrArg Prod.fst hsr
    · exact congrArg Prod.snd hsr
    · rw [(entry.update_stamp T _ d t q).2, (entry.update_stamp T e d t q).2]
  exact ⟨hg, entry.entry_eq_of_fields _ _ hd hm hb hg, rfl, rfl, rfl, rfl⟩

/-- C18 (pressed modifiers and buttons are sets, not counters).  For every entry
and every modifier flag `m` (resp. pointing button `b`): after `k ≥ 1`
consecutive `key_down` events for it followed by a single `key_up` for it, it is
not in the pressed set; a `key_down` of an already pressed modifier or button
leaves the pressed set unchanged; and `key_down` events for two distinct
modifiers followed by the `key_up` of one of them leave the pressed-modifier set
non-empty.  It holds for every implementation of the repeat detector. -/
theorem C18_pressed_sets_are_sets (T : types) (D : repeat_detector) (e : entry D) :
    (∀ (m : Nat) (downs : List entry.update_call) (up : entry.update_call),
      1 ≤ downs.length →
      (∀ c ∈ downs, c.queued_event.event_type_ = event_type.key_down ∧
        entry.modifier_of T c.queued_event = some m) →
      up.queued_event.event_type_ = event_type.key_up →
      entry.modifier_of T up.queued_event = some m →
      m ∉ (entry.run T e (downs ++ [up])).pressed_modifier_flags_) ∧
    (∀ (b : Nat) (downs : List entry.update_call) (up : entry.update_call),
      1 ≤ downs.length →
      (∀ c ∈ downs, c.queued_event.event_type_ = event_type.key_down ∧
        c.queued_event.pointing_button = some b) →
      up.queued_event.event_type_ = event_type.key_up →
      up.queued_event.pointing_button = some b →
      b ∉ (entry.run T e (downs ++ [up])).pressed_pointing_buttons_) ∧
    (∀ (m d t : Nat) (q : queued_event),
      q.event_type_ = event_type.key_down → entry.modifier_of T q = some m →
      m ∈ e.pressed_modifier_flags_ →
      (entry.update T e d t q).pressed_modifier_flags_ = e.pressed_modifier_flags_) ∧
    (∀ (b d t : Nat) (q : queued_event),
      q.event_type_ = event_type.key_down → q.pointing_button = some b →
      b ∈ e.pressed_pointing_buttons_ →
      (entry.update T e d t q).pressed_pointing_buttons_ = e.pressed_pointing_buttons_) ∧
    (∀ (m1 m2 : Nat) (c1 c2 c3 : entry.update_call),
      m1 ≠ m2 →
      c1.queued_event.event_type_ = event_type.key_down →
      entry.modifier_of T c1.queued_event = some m1 →
      c2.queued_event.event_type_ = event_type.key_down →
      entry.modifier_of T c2.queued_event = some m2 →
      c3.queued_event.event_type_ = event_type.key_up →
      (entry.modifier_of T c3.queued_event = some m1 ∨
        entry.modifier_of T c3.queued_event = some m2) →
      (entry.run T e [c1, c2, c3]).pressed_modifier_flags_.Nonempty) := by
  refine ⟨?_, ?_, ?_, ?_, ?_⟩
  · intro m downs up _ _ hup hm
    rw [entry.run_append, entry.run_singleton, entry.update_modifiers, hm, hup]
    exact entry.not_mem_pressed_after_key_up _ _
  · intro b downs up _ _ hup hb
    rw [entry.run_append, entry.run_singleton, entry.update_buttons, hb, hup]
    exact entry.not_mem_pressed_after_key_up _ _
  · intro m d t q hdown hm hmem
    rw [entry.update_modifiers, hm, hdown]
    simp [entry.pressed_after, Finset.insert_eq_of_mem hmem]
  · intro b d t q hdown hb hmem
    rw [entry.update_buttons, hb, hdown]
    simp [entry.pressed_after, Finset.insert_eq_of_mem hmem]
  · intro m1 m2 c1 c2 c3 hne h1t h1m h2t h2m h3t h3m
    rw [entry.run_cons, entry.run_cons, entry.run_singleton, entry.update_modifiers,
      entry.update_modifiers, entry.update_modifiers, h1t, h1m, h2t, h2m, h3t]
    rcases h3m with h | h
    · rw [h]
      refine ⟨m2, ?_⟩
      simp [entry.pressed_after, Ne.symm hne]
    · rw [h]
      refine ⟨m1, ?_⟩
      simp [entry.pressed_after, hne]

/-- Witness of C18 at the sample table: caps lock (flag 1) goes down three times
and up once and is no longer pressed; caps lock and left control (key code 224,
flag 2) go down and caps lock goes up, and the set is non-empty. -/
theorem C18_pressed_sets_are_sets_witness :
    1 ∉ (entry.run sample_types (entry.mk_entry keyboard_repeat_detector 3)
          ([⟨3, 100, ⟨event_type.key_down, some 57, none, none⟩⟩,
            ⟨3, 101, ⟨event_type.key_down, some 57, none, none⟩⟩,
            ⟨3, 102, ⟨event_type.key_down, some 57, none, none⟩⟩] ++
           [⟨3, 103, ⟨event_type.key_up, some 57, none, none⟩⟩])).pressed_modifier_flags_ ∧
    (entry.run sample_types (entry.mk_entry keyboard_repeat_detector 3)
          [⟨3, 100, ⟨event_type.key_down, some 57, none, none⟩⟩,
           ⟨3, 101, ⟨event_type.key_down, some 224, none, none⟩⟩,
           ⟨3, 102, ⟨event_type.key_up, some 57, none, none⟩⟩]).pressed_modifier_flags_.Nonempty := by
  have h := C18_pressed_sets_are_sets sample_types keyboard_repeat_detector
    (entry.mk_entry keyboard_repeat_detector 3)
  refine ⟨h.1 1 _ _ (by decide) ?_ rfl (by decide),
    h.2.2.2.2 1 2 _ _ _ (by decide) rfl (by decide) rfl (by decide) rfl (Or.inl (by decide))⟩
  intro c hc
  simp only [List.mem_cons, List.mem_singleton, List.not_mem_nil, or_false] at hc
  rcases hc with rfl | rfl | rfl <;> exact ⟨rfl, by decide⟩

end krbn

/-! ## Theorems about `receiver` -/

namespace krbn

/-- C6 (exact-size gating).  For every received datagram of `n > 0` bytes whose
first byte casts to `grabbable_state_changed` (resp. `connect`), the iteration
makes a collaborator call if and only if `n` equals the size of the
corresponding struct.  For any other `n` the calls, the device grabber and the
process monitor are unchanged.  An accepted `grabbable_state_changed` makes
exactly one call, `update_grabbable_state` with the embedded record, and leaves
the device grabber and the process monitor unchanged. -/
theorem C6_exact_size_gating (W : wire) (s : receiver) (r : receiver.receive_result)
    (hec : r.ec = false) (hpos : 0 < r.n) :
    (W.cast (r.buffer.getD 0 0) = operation_type.grabbable_state_changed →
      ((receiver.worker_iteration W s r).calls ≠ s.calls ↔
        r.n = W.sizeof_grabbable_state_changed_struct) ∧
      (r.n = W.sizeof_grabbable_state_changed_struct →
        (receiver.worker_iteration W s r).calls = s.calls ++
          [call.grabbable_state_queues_manager_update_grabbable_state
            (field_bytes r.buffer W.grabbable_state)]) ∧
      (r.n ≠ W.sizeof_grabbable_state_changed_struct →
        (receiver.worker_iteration W s r).calls = s.calls) ∧
      (receiver.worker_iteration W s r).device_grabber_ = s.device_grabber_ ∧
      (receiver.worker_iteration W s r).console_user_server_process_monitor_ =
        s.console_user_server_process_monitor_) ∧
    (W.cast (r.buffer.getD 0 0) = operation_type.connect →
      ((receiver.worker_iteration W s r).calls ≠ s.calls ↔ r.n = W.sizeof_connect_struct) ∧
      (r.n ≠ W.sizeof_connect_struct →
        (receiver.worker_iteration W s r).calls = s.calls ∧
        (receiver.worker_iteration W s r).device_grabber_ = s.device_grabber_ ∧
        (receiver.worker_iteration W s r).console_user_server_process_monitor_ =
          s.console_user_server_process_monitor_)) := by
  rw [receiver.worker_iteration_received W s r hec hpos]
  constructor
  · intro htag
    have hd : receiver.dispatch W { s with buffer_ := r.buffer } r.n =
        receiver.on_grabbable_state_changed W { s with buffer_ := r.buffer } r.n := by
      unfold receiver.dispatch
      simp only [htag]
    rw [hd]
    unfold receiver.on_grabbable_state_changed
    by_cases hn : r.n = W.sizeof_grabbable_state_changed_struct
    · simp [hn]
    · simp [hn]
  · intro htag
    have hd : receiver.dispatch W { s with buffer_ := r.buffer } r.n =
        receiver.on_connect W { s with buffer_ := r.buffer } r.n := by
      unfold receiver.dispatch
      simp only [htag]
    rw [hd]
    by_cases hn : r.n = W.sizeof_connect_struct
    · rw [hn, receiver.on_connect_accepted]
      refine ⟨?_, fun h => absurd rfl h⟩
      constructor
      · intro _; trivial
      · intro _
        exact receiver.append_ne_self _ _ (receiver.connect_calls_ne_nil _ _ _)
    · rw [receiver.on_connect_rejected W _ r.n hn]
      simp [hn]

/-- Witness of C6 on the sample layout: a `grabbable_state_changed` datagram of
exactly 4 bytes is forwarded once; the same datagram reported one byte shorter or
one byte longer makes no call. -/
theorem C6_exact_size_gating_witness :
    ((⟨false, 4, [1, 7, 8, 9, 0, 0, 0, 0]⟩ : receiver.receive_result).ec = false ∧
      0 < (⟨false, 4, [1, 7, 8, 9, 0, 0, 0, 0]⟩ : receiver.receive_result).n) ∧
    (receiver.worker_iteration sample_wire sample_receiver
        ⟨false, 4, [1, 7, 8, 9, 0, 0, 0, 0]⟩).calls =
      [call.grabbable_state_queues_manager_update_grabbable_state [7, 8, 9]] ∧
    (receiver.worker_iteration sample_wire sample_receiver
        ⟨false, 3, [1, 7, 8, 9, 0, 0, 0, 0]⟩).calls = [] ∧
    (receiver.worker_iteration sample_wire sample_receiver
        ⟨false, 5, [1, 7, 8, 9, 0, 0, 0, 0]⟩).calls = [] :=
  ⟨⟨rfl, by decide⟩,
    ((C6_exact_size_gating sample_wire sample_receiver ⟨false, 4, [1, 7, 8, 9, 0, 0, 0, 0]⟩
      rfl (by decide)).1 (by decide)).2.1 (by decide),
    by decide, by decide⟩

/-- C7 (minimum-size gating).  For every received datagram of `n > 0` bytes
whose first byte casts to `system_preferences_updated`,
`frontmost_application_changed` or `input_source_changed`: when `n` is smaller
than the size of the corresponding struct, the calls, the device grabber, the
process monitor and the buffer are unchanged; when `n` is at least that size
(equal or larger) and a device grabber is active, exactly one call carrying the
payload is made on it; so with an active device grabber a call is made if and
only if `n` is at least the struct size. -/
theorem C7_minimum_size_gating (W : wire) (s : receiver) (r : receiver.receive_result)
    (hec : r.ec = false) (hpos : 0 < r.n) :
    (W.cast (r.buffer.getD 0 0) = operation_type.system_preferences_updated →
      (r.n < W.sizeof_system_preferences_updated_struct →
        (receiver.worker_iteration W s r).calls = s.calls ∧
        (receiver.worker_iteration W s r).device_grabber_ = s.device_grabber_ ∧
        (receiver.worker_iteration W s r).console_user_server_process_monitor_ =
          s.console_user_server_process_monitor_ ∧
        (receiver.worker_iteration W s r).buffer_ = r.buffer) ∧
      (W.sizeof_system_preferences_updated_struct ≤ r.n → s.device_grabber_.isSome = true →
        (receiver.worker_iteration W s r).calls = s.calls ++
          [call.device_grabber_set_system_preferences
            (field_bytes r.buffer W.system_preferences)]) ∧
      (s.device_grabber_.isSome = true →
        ((receiver.worker_iteration W s r).calls ≠ s.calls ↔
          W.sizeof_system_preferences_updated_struct ≤ r.n))) ∧
    (W.cast (r.buffer.getD 0 0) = operation_type.frontmost_application_changed →
      (r.n < W.sizeof_frontmost_application_changed_struct →
        (receiver.worker_iteration W s r).calls = s.calls ∧
        (receiver.worker_iteration W s r).device_grabber_ = s.device_grabber_ ∧
        (receiver.worker_iteration W s r).console_user_server_process_monitor_ =
          s.console_user_server_process_monitor_ ∧
        (receiver.worker_iteration W s r).buffer_ = r.buffer) ∧
      (W.sizeof_frontmost_application_changed_struct ≤ r.n → s.device_grabber_.isSome = true →
        (receiver.worker_iteration W s r).calls = s.calls ++
          [call.device_grabber_post_frontmost_application_changed_event
            (c_string (terminate (terminate r.buffer W.bundle_identifier) W.file_path)
              W.bundle_identifier)
            (c_string (terminate (terminate r.buffer W.bundle_identifier) W.file_path)
              W.file_path)]) ∧
      (s.device_grabber_.isSome = true →
        ((receiver.worker_iteration W s r).calls ≠ s.calls ↔
          W.sizeof_frontmost_application_changed_struct ≤ r.n))) ∧
    (W.cast (r.buffer.getD 0 0) = operation_type.input_source_changed →
      (r.n < W.sizeof_input_source_changed_struct →
        (receiver.worker_iteration W s r).calls = s.calls ∧
        (receiver.worker_iteration W s r).device_grabber_ = s.device_grabber_ ∧
        (receiver.worker_iteration W s r).console_user_server_process_monitor_ =
          s.console_user_server_process_monitor_ ∧
        (receiver.worker_iteration W s r).buffer_ = r.buffer) ∧
      (W.sizeof_input_source_changed_struct ≤ r.n → s.device_grabber_.isSome = true →
        (receiver.worker_iteration W s r).calls = s.calls ++
          [call.device_grabber_post_input_source_changed_event
            (c_string
              (terminate (terminate (terminate r.buffer W.language) W.input_source_id)
                W.input_mode_id) W.language)
            (c_string
              (terminate (terminate (terminate r.buffer W.language) W.input_source_id)
                W.input_mode_id) W.input_source_id)
            (c_string
              (terminate (terminate (terminate r.buffer W.language) W.input_source_id)
                W.input_mode_id) W.input_mode_id)]) ∧
      (s.device_grabber_.isSome = true →
        ((receiver.worker_iteration W s r).calls ≠ s.calls ↔
          W.sizeof_input_source_changed_struct ≤ r.n))) := by
  rw [receiver.worker_iteration_received W s r hec hpos]
  refine ⟨?_, ?_, ?_⟩
  · intro htag
    have hd : receiver.dispatch W { s with buffer_ := r.buffer } r.n =
        receiver.on_system_preferences_updated W { s with buffer_ := r.buffer } r.n := by
      unfold receiver.dispatch
      simp only [htag]
    rw [hd]
    unfold receiver.on_system_preferences_updated
    by_cases hn : r.n < W.sizeof_system_preferences_updated_struct
    · simp [hn, Nat.not_le.mpr hn]
    · cases hg : s.device_grabber_ <;> simp [hn, hg, Nat.not_lt.mp hn]
  · intro htag
    have hd : receiver.dispatch W { s with buffer_ := r.buffer } r.n =
        receiver.on_frontmost_application_changed W { s with buffer_ := r.buffer } r.n := by
      unfold receiver.dispatch
      simp only [htag]
    rw [hd]
    unfold receiver.on_frontmost_application_changed
    by_cases hn : r.n < W.sizeof_frontmost_application_changed_struct
    · simp [hn, Nat.not_le.mpr hn]
    · cases hg : s.device_grabber_ <;> simp [hn, hg, Nat.not_lt.mp hn]
  · intro htag
    have hd : receiver.dispatch W { s with buffer_ := r.buffer } r.n =
        receiver.on_input_source_changed W { s with buffer_ := r.buffer } r.n := by
      unfold receiver.dispatch
      simp only [htag]
    rw [hd]
    unfold receiver.on_input_source_changed
    by_cases hn : r.n < W.sizeof_input_source_changed_struct
    · simp [hn, Nat.not_le.mpr hn]
    · cases hg : s.device_grabber_ <;> simp [hn, hg, Nat.not_lt.mp hn]

/-- Witness of C7 on the sample layout with an active device grabber: a
`frontmost_application_changed` datagram of exactly 7 bytes (the struct size) is
forwarded, and so is one reported with a trailing byte; one of 6 bytes makes no
call. -/
theorem C7_minimum_size_gating_witness :
    ((⟨false, 7, [4, 65, 66, 0, 67, 68, 0, 0]⟩ : receiver.receive_result).ec = false ∧
      0 < (⟨false, 7, [4, 65, 66, 0, 67, 68, 0, 0]⟩ : receiver.receive_result).n) ∧
    (receiver.worker_iteration sample_wire sample_receiver_connected
        ⟨false, 7, [4, 65, 66, 0, 67, 68, 0, 0]⟩).calls =
      [call.device_grabber_post_frontmost_application_changed_event [65, 66] [67, 68]] ∧
    (receiver.worker_iteration sample_wire sample_receiver_connected
        ⟨false, 8, [4, 65, 66, 0, 67, 68, 0, 0]⟩).calls =
      [call.device_grabber_post_frontmost_application_changed_event [65, 66] [67, 68]] ∧
    (receiver.worker_iteration sample_wire sample_receiver_connected
        ⟨false, 6, [4, 65, 66, 0, 67, 68, 0, 0]⟩).calls = [] :=
  ⟨⟨rfl, by decide⟩,
    (((C7_minimum_size_gating sample_wire sample_receiver_connected
      ⟨false, 7, [4, 65, 66, 0, 67, 68, 0, 0]⟩ rfl (by decide)).2.1 (by decide)).2.1
        (by decide) rfl).trans (by decide),
    by decide, by decide⟩

/-- C8 (defensive termination).  Let the `char` array members of the wire structs
lie inside their structs without overlapping, and let the reported length not
exceed the receive buffer.  Then for every accepted `connect`,
`frontmost_application_changed` and `input_source_changed` datagram and every
content of the members, each string handed downstream (configuration path;
bundle identifier and file path; language, input source id and input mode id)
is the capacity-bounded string of its member as received: the bytes before the
first zero among the first `size - 1` bytes, or else those `size - 1` bytes.  Its
length never exceeds `size - 1`, and it depends on no byte outside the member. -/
theorem C8_defensive_termination (W : wire) (s : receiver) (r : receiver.receive_result)
    (hec : r.ec = false) (hpos : 0 < r.n)
    (hwf : W.strings_well_formed) (hbuf : r.n ≤ r.buffer.length) :
    (W.cast (r.buffer.getD 0 0) = operation_type.connect →
      r.n = W.sizeof_connect_struct →
      (receiver.worker_iteration W s r).calls = s.calls ++
        receiver.connect_calls s
          (capacity_bounded_string r.buffer W.user_core_configuration_file_path)
          (field_bytes (terminate r.buffer W.user_core_configuration_file_path) W.pid) ∧
      (receiver.worker_iteration W s r).device_grabber_ =
        some ⟨some (capacity_bounded_string r.buffer W.user_core_configuration_file_path)⟩ ∧
      (capacity_bounded_string r.buffer W.user_core_configuration_file_path).length ≤
        W.user_core_configuration_file_path.size - 1) ∧
    (W.cast (r.buffer.getD 0 0) = operation_type.frontmost_application_changed →
      W.sizeof_frontmost_application_changed_struct ≤ r.n →
      s.device_grabber_.isSome = true →
      (receiver.worker_iteration W s r).calls = s.calls ++
        [call.device_grabber_post_frontmost_application_changed_event
          (capacity_bounded_string r.buffer W.bundle_identifier)
          (capacity_bounded_string r.buffer W.file_path)] ∧
      (capacity_bounded_string r.buffer W.bundle_identifier).length ≤
        W.bundle_identifier.size - 1 ∧
      (capacity_bounded_string r.buffer W.file_path).length ≤ W.file_path.size - 1) ∧
    (W.cast (r.buffer.getD 0 0) = operation_type.input_source_changed →
      W.sizeof_input_source_changed_struct ≤ r.n →
      s.device_grabber_.isSome = true →
      (receiver.worker_iteration W s r).calls = s.calls ++
        [call.device_grabber_post_input_source_changed_event
          (capacity_bounded_string r.buffer W.language)
          (capacity_bounded_string r.buffer W.input_source_id)
          (capacity_bounded_string r.buffer W.input_mode_id)] ∧
      (capacity_bounded_string r.buffer W.language).length ≤ W.language.size - 1 ∧
      (capacity_bounded_string r.buffer W.input_source_id).length ≤
        W.input_source_id.size - 1 ∧
      (capacity_bounded_string r.buffer W.input_mode_id).length ≤ W.input_mode_id.size - 1) := by
  obtain ⟨hpath, hbundle, hfile, hbf, hlang, hid, hmode, hli, hlm, him⟩ := hwf
  rw [receiver.worker_iteration_received W s r hec hpos]
  refine ⟨?_, ?_, ?_⟩
  · intro htag hn
    have hd : receiver.dispatch W { s with buffer_ := r.buffer } r.n =
        receiver.on_connect W { s with buffer_ := r.buffer } r.n := by
      unfold receiver.dispatch
      simp only [htag]
    have hstr : c_string (terminate r.buffer W.user_core_configuration_file_path)
        W.user_core_configuration_file_path =
        capacity_bounded_string r.buffer W.user_core_configuration_file_path :=
      c_string_after_terminations W.user_core_configuration_file_path
        [W.user_core_configuration_file_path] r.buffer
        (by
          intro g hg
          rw [List.mem_singleton] at hg
          subst hg
          exact ⟨hpath.1, Or.inl rfl⟩)
        (List.mem_singleton.mpr rfl)
        (field.fits_last_lt hpath (Nat.le_of_eq hn.symm) hbuf)
    rw [hd, hn, receiver.on_connect_accepted]
    dsimp only
    rw [hstr]
    exact ⟨rfl, rfl, capacity_bounded_string_length _ _⟩
  · intro htag hn hg
    have hd : receiver.dispatch W { s with buffer_ := r.buffer } r.n =
        receiver.on_frontmost_application_changed W { s with buffer_ := r.buffer } r.n := by
      unfold receiver.dispatch
      simp only [htag]
    have hgs : ∀ f, f ∈ [W.bundle_identifier, W.file_path] →
        ∀ g ∈ [W.bundle_identifier, W.file_path], 0 < g.size ∧ (g = f ∨ f.disjoint g) := by
      intro f hf g hg
      simp only [List.mem_cons, List.mem_singleton, List.not_mem_nil, or_false] at hf hg
      rcases hf with rfl | rfl <;> rcases hg with rfl | rfl
      · exact ⟨hbundle.1, Or.inl rfl⟩
      · exact ⟨hfile.1, Or.inr hbf⟩
      · exact ⟨hbundle.1, Or.inr (field.disjoint_symm hbf)⟩
      · exact ⟨hfile.1, Or.inl rfl⟩
    have h1 := c_string_after_terminations W.bundle_identifier
      [W.bundle_identifier, W.file_path] r.buffer (hgs _ (by simp)) (by simp)
      (field.fits_last_lt hbundle hn hbuf)
    have h2 := c_string_after_terminations W.file_path
      [W.bundle_identifier, W.file_path] r.buffer (hgs _ (by simp)) (by simp)
      (field.fits_last_lt hfile hn hbuf)
    simp only [List.foldl_cons, List.foldl_nil] at h1 h2
    rw [hd]
    unfold receiver.on_frontmost_application_changed
    rw [if_neg (Nat.not_lt.mpr hn)]
    obtain ⟨g0, hg0⟩ := Option.isSome_iff_exists.mp hg
    simp only [hg0, h1, h2]
    exact ⟨trivial, capacity_bounded_string_length _ _, capacity_bounded_string_length _ _⟩
  · intro htag hn hg
    have hd : receiver.dispatch W { s with buffer_ := r.buffer } r.n =
        receiver.on_input_source_changed W { s with buffer_ := r.buffer } r.n := by
      unfold receiver.dispatch
      simp only [htag]
    have hgs : ∀ f, f ∈ [W.language, W.input_source_id, W.input_mode_id] →
        ∀ g ∈ [W.language, W.input_source_id, W.input_mode_id],
          0 < g.size ∧ (g = f ∨ f.disjoint g) := by
      intro f hf g hg
      simp only [List.mem_cons, List.mem_singleton, List.not_mem_nil, or_false] at hf hg
      rcases hf with rfl | rfl | rfl <;> rcases hg with rfl | rfl | rfl
      · exact ⟨hlang.1, Or.inl rfl⟩
      · exact ⟨hid.1, Or.inr hli⟩
      · exact ⟨hmode.1, Or.inr hlm⟩
      · exact ⟨hlang.1, Or.inr (field.disjoint_symm hli)⟩
      · exact ⟨hid.1, Or.inl rfl⟩
      · exact ⟨hmode.1, Or.inr him⟩
      · exact ⟨hlang.1, Or.inr (field.disjoint_symm hlm)⟩
      · exact ⟨hid.1, Or.inr (field.disjoint_symm him)⟩
      · exact ⟨hmode.1, Or.inl rfl⟩
    have h1 := c_string_after_terminations W.language
      [W.language, W.input_source_id, W.input_mode_id] r.buffer (hgs _ (by simp)) (by simp)
      (field.fits_last_lt hlang hn hbuf)
    have h2 := c_string_after_terminations W.input_source_id
      [W.language, W.input_source_id, W.input_mode_id] r.buffer (hgs _ (by simp)) (by simp)
      (field.fits_last_lt hid hn hbuf)
    have h3 := c_string_after_terminations W.input_mode_id
      [W.language, W.input_source_id, W.input_mode_id] r.buffer (hgs _ (by simp)) (by simp)
      (field.fits_last_lt hmode hn hbuf)
    simp only [List.foldl_cons, List.foldl_nil] at h1 h2 h3
    rw [hd]
    unfold receiver.on_input_source_changed
    rw [if_neg (Nat.not_lt.mpr hn)]
    obtain ⟨g0, hg0⟩ := Option.isSome_iff_exists.mp hg
    simp only [hg0, h1, h2, h3]
    exact ⟨trivial, capacity_bounded_string_length _ _, capacity_bounded_string_length _ _,
      capacity_bounded_string_length _ _⟩

/-- Witness of C8 on the sample layout: a `connect` datagram whose path member
(3 bytes at offset 3) holds no zero byte and is followed by non-zero bytes; the
device grabber is started against the first 2 bytes of the member. -/
theorem C8_defensive_termination_witness :
    ((⟨false, 6, [2, 9, 0, 65, 66, 67, 7, 7]⟩ : receiver.receive_result).ec = false ∧
      0 < (⟨false, 6, [2, 9, 0, 65, 66, 67, 7, 7]⟩ : receiver.receive_result).n ∧
      sample_wire.strings_well_formed ∧
      (⟨false, 6, [2, 9, 0, 65, 66, 67, 7, 7]⟩ : receiver.receive_result).n ≤
        (⟨false, 6, [2, 9, 0, 65, 66, 67, 7, 7]⟩ : receiver.receive_result).buffer.length) ∧
    (receiver.worker_iteration sample_wire sample_receiver
        ⟨false, 6, [2, 9, 0, 65, 66, 67, 7, 7]⟩).device_grabber_ = some ⟨some [65, 66]⟩ :=
  ⟨⟨rfl, by decide, by simp [wire.strings_well_formed, field.fits, field.disjoint, sample_wire],
      by decide⟩,
    (((C8_defensive_termination sample_wire sample_receiver
      ⟨false, 6, [2, 9, 0, 65, 66, 67, 7, 7]⟩ rfl (by decide)
      (by simp [wire.strings_well_formed, field.fits, field.disjoint, sample_wire])
      (by decide)).1 (by decide) rfl).2.1).trans (by decide)⟩

/-- C9 (two `connect` datagrams back to back).  For every receiver state,
processing two exact-size `connect` datagrams one after the other ends with one
device grabber, started against the path of the second datagram, and one process
monitor, on the pid of the second datagram.  The second `connect` makes, in this
order, the calls: destroy the device grabber, construct one, start it, destroy
the monitor of the first pid, construct the monitor of the second pid.  After
every prefix of the calls made by the two datagrams at most one device grabber
and at most one process monitor are live, and exactly one of each is live at the
end. -/
theorem C9_connect_twice (W : wire) (s s1 s2 : receiver) (r1 r2 : receiver.receive_result)
    (hec1 : r1.ec = false) (hpos1 : 0 < r1.n)
    (htag1 : W.cast (r1.buffer.getD 0 0) = operation_type.connect)
    (hn1 : r1.n = W.sizeof_connect_struct)
    (hec2 : r2.ec = false) (hpos2 : 0 < r2.n)
    (htag2 : W.cast (r2.buffer.getD 0 0) = operation_type.connect)
    (hn2 : r2.n = W.sizeof_connect_struct)
    (hs1 : s1 = receiver.worker_iteration W s r1)
    (hs2 : s2 = receiver.worker_iteration W s1 r2) :
    s2.device_grabber_ = some ⟨some
      (c_string (terminate r2.buffer W.user_core_configuration_file_path)
        W.user_core_configuration_file_path)⟩ ∧
    s2.console_user_server_process_monitor_ = some
      ⟨field_bytes (terminate r2.buffer W.user_core_configuration_file_path) W.pid⟩ ∧
    s1.calls = s.calls ++ receiver.connect_calls s
      (c_string (terminate r1.buffer W.user_core_configuration_file_path)
        W.user_core_configuration_file_path)
      (field_bytes (terminate r1.buffer W.user_core_configuration_file_path) W.pid) ∧
    s2.calls = s1.calls ++
      [call.device_grabber_dtor, call.device_grabber_ctor,
        call.device_grabber_start
          (c_string (terminate r2.buffer W.user_core_configuration_file_path)
            W.user_core_configuration_file_path),
        call.process_monitor_dtor
          (field_bytes (terminate r1.buffer W.user_core_configuration_file_path) W.pid),
        call.process_monitor_ctor
          (field_bytes (terminate r2.buffer W.user_core_configuration_file_path) W.pid)] ∧
    ∃ made : List call, s2.calls = s.calls ++ made ∧
      (∀ k, receiver.live_after receiver.is_device_grabber_ctor receiver.is_device_grabber_dtor
        (receiver.owned s.device_grabber_) (made.take k) ≤ 1) ∧
      (∀ k, receiver.live_after receiver.is_process_monitor_ctor
        receiver.is_process_monitor_dtor
        (receiver.owned s.console_user_server_process_monitor_) (made.take k) ≤ 1) ∧
      receiver.live_after receiver.is_device_grabber_ctor receiver.is_device_grabber_dtor
        (receiver.owned s.device_grabber_) made = 1 ∧
      receiver.live_after receiver.is_process_monitor_ctor receiver.is_process_monitor_dtor
        (receiver.owned s.console_user_server_process_monitor_) made = 1 := by
  have e1 := receiver.worker_iteration_connect_accepted W s r1 hec1 hpos1 htag1 hn1
  rw [receiver.on_connect_accepted] at e1
  rw [← hs1] at e1
  have e2 := receiver.worker_iteration_connect_accepted W s1 r2 hec2 hpos2 htag2 hn2
  rw [receiver.on_connect_accepted] at e2
  rw [← hs2] at e2
  dsimp only at e1 e2
  have hg1 : s1.device_grabber_ = some ⟨some
      (c_string (terminate r1.buffer W.user_core_configuration_file_path)
        W.user_core_configuration_file_path)⟩ := by rw [e1]
  have hm1 : s1.console_user_server_process_monitor_ = some
      ⟨field_bytes (terminate r1.buffer W.user_core_configuration_file_path) W.pid⟩ := by
    rw [e1]
  have hc1 : s1.calls = s.calls ++ receiver.connect_calls s
      (c_string (terminate r1.buffer W.user_core_configuration_file_path)
        W.user_core_configuration_file_path)
      (field_bytes (terminate r1.buffer W.user_core_configuration_file_path) W.pid) := by
    rw [e1]
    rfl
  have hc2 : s2.calls = s1.calls ++
      [call.device_grabber_dtor, call.device_grabber_ctor,
        call.device_grabber_start
          (c_string (terminate r2.buffer W.user_core_configuration_file_path)
            W.user_core_configuration_file_path),
        call.process_monitor_dtor
          (field_bytes (terminate r1.buffer W.user_core_configuration_file_path) W.pid),
        call.process_monitor_ctor
          (field_bytes (terminate r2.buffer W.user_core_configuration_file_path) W.pid)] := by
    rw [e2]
    dsimp only
    rw [receiver.connect_calls_of_owned { s1 with buffer_ := r2.buffer } _ _ hg1 hm1]
  have hl := receiver.connect_twice_live s
    (c_string (terminate r1.buffer W.user_core_configuration_file_path)
      W.user_core_configuration_file_path)
    (field_bytes (terminate r1.buffer W.user_core_configuration_file_path) W.pid)
    (c_string (terminate r2.buffer W.user_core_configuration_file_path)
      W.user_core_configuration_file_path)
    (field_bytes (terminate r2.buffer W.user_core_configuration_file_path) W.pid)
  refine ⟨by rw [e2], by rw [e2], hc1, hc2, _, by rw [hc2, hc1, List.append_assoc],
    fun k => le_trans (receiver.live_after_take_le_peak_live _ _ _ _ k) hl.1,
    fun k => le_trans (receiver.live_after_take_le_peak_live _ _ _ _ k) hl.2.1,
    hl.2.2.1, hl.2.2.2⟩

/-- Witness of C9 on the sample layout, starting with no device grabber and no
process monitor: `connect` with pid bytes `[1, 0]` and path `[65, 66]`, then
`connect` with pid bytes `[2, 0]` and path `[67, 68]`. -/
theorem C9_connect_twice_witness :
    ((⟨false, 6, [2, 1, 0, 65, 66, 0, 0, 0]⟩ : receiver.receive_result).ec = false ∧
      0 < (⟨false, 6, [2, 1, 0, 65, 66, 0, 0, 0]⟩ : receiver.receive_result).n ∧
      sample_wire.cast ((⟨false, 6, [2, 1, 0, 65, 66, 0, 0, 0]⟩ :
        receiver.receive_result).buffer.getD 0 0) = operation_type.connect ∧
      (⟨false, 6, [2, 1, 0, 65, 66, 0, 0, 0]⟩ : receiver.receive_result).n =
        sample_wire.sizeof_connect_struct ∧
      (⟨false, 6, [2, 2, 0, 67, 68, 0, 0, 0]⟩ : receiver.receive_result).ec = false ∧
      0 < (⟨false, 6, [2, 2, 0, 67, 68, 0, 0, 0]⟩ : receiver.receive_result).n ∧
      sample_wire.cast ((⟨false, 6, [2, 2, 0, 67, 68, 0, 0, 0]⟩ :
        receiver.receive_result).buffer.getD 0 0) = operation_type.connect ∧
      (⟨false, 6, [2, 2, 0, 67, 68, 0, 0, 0]⟩ : receiver.receive_result).n =
        sample_wire.sizeof_connect_struct) ∧
    (receiver.worker_iteration sample_wire
        (receiver.worker_iteration sample_wire sample_receiver
          ⟨false, 6, [2, 1, 0, 65, 66, 0, 0, 0]⟩)
        ⟨false, 6, [2, 2, 0, 67, 68, 0, 0, 0]⟩).device_grabber_ = some ⟨some [67, 68]⟩ ∧
    (receiver.worker_iteration sample_wire
        (receiver.worker_iteration sample_wire sample_receiver
          ⟨false, 6, [2, 1, 0, 65, 66, 0, 0, 0]⟩)
        ⟨false, 6, [2, 2, 0, 67, 68, 0, 0, 0]⟩).console_user_server_process_monitor_ =
      some ⟨[2, 0]⟩ ∧
    (receiver.worker_iteration sample_wire
        (receiver.worker_iteration sample_wire sample_receiver
          ⟨false, 6, [2, 1, 0, 65, 66, 0, 0, 0]⟩)
        ⟨false, 6, [2, 2, 0, 67, 68, 0, 0, 0]⟩).calls =
      [call.device_grabber_ctor, call.device_grabber_start [65, 66],
        call.process_monitor_ctor [1, 0],
        call.device_grabber_dtor, call.device_grabber_ctor, call.device_grabber_start [67, 68],
        call.process_monitor_dtor [1, 0], call.process_monitor_ctor [2, 0]] := by
  have h := C9_connect_twice sample_wire sample_receiver
    (receiver.worker_iteration sample_wire sample_receiver
      ⟨false, 6, [2, 1, 0, 65, 66, 0, 0, 0]⟩)
    (receiver.worker_iteration sample_wire
      (receiver.worker_iteration sample_wire sample_receiver
        ⟨false, 6, [2, 1, 0, 65, 66, 0, 0, 0]⟩)
      ⟨false, 6, [2, 2, 0, 67, 68, 0, 0, 0]⟩)
    ⟨false, 6, [2, 1, 0, 65, 66, 0, 0, 0]⟩ ⟨false, 6, [2, 2, 0, 67, 68, 0, 0, 0]⟩
    rfl (by decide) (by decide) rfl rfl (by decide) (by decide) rfl rfl rfl
  exact ⟨⟨rfl, by decide, by decide, rfl, rfl, by decide, by decide, rfl⟩,
    h.1.trans (by decide), h.2.1.trans (by decide), h.2.2.2.1.trans (by decide)⟩

/-- C10 (unknown tags are ignored).  For every received datagram of any length
`n > 0` and any content whose first byte casts to none of the five known
operation types, the iteration leaves the device grabber, the process monitor,
the collaborator calls (hence the shared manager) and the log unchanged, and the
loop goes on with the next receive. -/
theorem C10_unknown_tag_ignored (W : wire) (s : receiver) (r : receiver.receive_result)
    (rest : List (Bool × receiver.receive_result))
    (hec : r.ec = false) (hpos : 0 < r.n)
    (htag : W.cast (r.buffer.getD 0 0) = operation_type.other) :
    receiver.worker_iteration W s r = { s with buffer_ := r.buffer } ∧
    (receiver.worker_iteration W s r).device_grabber_ = s.device_grabber_ ∧
    (receiver.worker_iteration W s r).console_user_server_process_monitor_ =
      s.console_user_server_process_monitor_ ∧
    (receiver.worker_iteration W s r).calls = s.calls ∧
    (receiver.worker_iteration W s r).log = s.log ∧
    receiver.worker_loop W ((false, r) :: rest) s =
      receiver.worker_loop W rest { s with buffer_ := r.buffer } := by
  have h : receiver.worker_iteration W s r = { s with buffer_ := r.buffer } := by
    rw [receiver.worker_iteration_received W s r hec hpos]
    unfold receiver.dispatch
    simp only [htag]
  refine ⟨h, ?_, ?_, ?_, ?_, ?_⟩
  · rw [h]
  · rw [h]
  · rw [h]
  · rw [h]
  · simp [receiver.worker_loop, h]

/-- Witness of C10 on the sample layout: a datagram of 8 bytes with tag 99,
followed by a valid `grabbable_state_changed` datagram that the loop then
processes. -/
theorem C10_unknown_tag_ignored_witness :
    ((⟨false, 8, [99, 1, 2, 3, 4, 5, 6, 7]⟩ : receiver.receive_result).ec = false ∧
      0 < (⟨false, 8, [99, 1, 2, 3, 4, 5, 6, 7]⟩ : receiver.receive_result).n ∧
      sample_wire.cast ((⟨false, 8, [99, 1, 2, 3, 4, 5, 6, 7]⟩ :
        receiver.receive_result).buffer.getD 0 0) = operation_type.other) ∧
    (receiver.worker_iteration sample_wire sample_receiver_connected
      ⟨false, 8, [99, 1, 2, 3, 4, 5, 6, 7]⟩).calls = [] ∧
    (receiver.worker_loop sample_wire
      [(false, ⟨false, 8, [99, 1, 2, 3, 4, 5, 6, 7]⟩),
       (false, ⟨false, 4, [1, 7, 8, 9, 4, 5, 6, 7]⟩)] sample_receiver_connected).calls =
      [call.grabbable_state_queues_manager_update_grabbable_state [7, 8, 9]] :=
  ⟨⟨rfl, by decide, by decide⟩,
    (C10_unknown_tag_ignored sample_wire sample_receiver_connected
      ⟨false, 8, [99, 1, 2, 3, 4, 5, 6, 7]⟩ [] rfl (by decide) (by decide)).2.2.2.1,
    by decide⟩

/-- C11 (downstream absence is a no-op).  For every `system_preferences_updated`,
`frontmost_application_changed` or `input_source_changed` datagram of valid size:
while no device grabber is active the iteration makes no collaborator call,
writes no log line, creates no device grabber and leaves the process monitor as
it is (only the receive buffer holds the datagram, with the forced
terminations); while a device grabber is active exactly one corresponding call
is made and the device grabber and the process monitor stay the same objects. -/
theorem C11_downstream_absence_is_noop (W : wire) (s : receiver)
    (r : receiver.receive_result) (hec : r.ec = false) (hpos : 0 < r.n) :
    (W.cast (r.buffer.getD 0 0) = operation_type.system_preferences_updated →
      W.sizeof_system_preferences_updated_struct ≤ r.n →
      (s.device_grabber_ = none →
        receiver.worker_iteration W s r = { s with buffer_ := r.buffer } ∧
        (receiver.worker_iteration W s r).calls = s.calls ∧
        (receiver.worker_iteration W s r).device_grabber_ = none) ∧
      (∀ g, s.device_grabber_ = some g →
        (receiver.worker_iteration W s r).calls = s.calls ++
          [call.device_grabber_set_system_preferences
            (field_bytes r.buffer W.system_preferences)] ∧
        (receiver.worker_iteration W s r).device_grabber_ = some g ∧
        (receiver.worker_iteration W s r).console_user_server_process_monitor_ =
          s.console_user_server_process_monitor_)) ∧
    (W.cast (r.buffer.getD 0 0) = operation_type.frontmost_application_changed →
      W.sizeof_frontmost_application_changed_struct ≤ r.n →
      (s.device_grabber_ = none →
        receiver.worker_iteration W s r =
          { s with buffer_ := terminate (terminate r.buffer W.bundle_identifier) W.file_path } ∧
        (receiver.worker_iteration W s r).calls = s.calls ∧
        (receiver.worker_iteration W s r).device_grabber_ = none) ∧
      (∀ g, s.device_grabber_ = some g →
        (receiver.worker_iteration W s r).calls = s.calls ++
          [call.device_grabber_post_frontmost_application_changed_event
            (c_string (terminate (terminate r.buffer W.bundle_identifier) W.file_path)
              W.bundle_identifier)
            (c_string (terminate (terminate r.buffer W.bundle_identifier) W.file_path)
              W.file_path)] ∧
        (receiver.worker_iteration W s r).device_grabber_ = some g ∧
        (receiver.worker_iteration W s r).console_user_server_process_monitor_ =
          s.console_user_server_process_monitor_)) ∧
    (W.cast (r.buffer.getD 0 0) = operation_type.input_source_changed →
      W.sizeof_input_source_changed_struct ≤ r.n →
      (s.device_grabber_ = none →
        receiver.worker_iteration W s r =
          { s with buffer_ := terminate
                     (terminate (terminate r.buffer W.language) W.input_source_id)
                     W.input_mode_id } ∧
        (receiver.worker_iteration W s r).calls = s.calls ∧
        (receiver.worker_iteration W s r).device_grabber_ = none) ∧
      (∀ g, s.device_grabber_ = some g →
        (receiver.worker_iteration W s r).calls = s.calls ++
          [call.device_grabber_post_input_source_changed_event
            (c_string
              (terminate (terminate (terminate r.buffer W.language) W.input_source_id)
                W.input_mode_id) W.language)
            (c_string
              (terminate (terminate (terminate r.buffer W.language) W.input_source_id)
                W.input_mode_id) W.input_source_id)
            (c_string
              (terminate (terminate (terminate r.buffer W.language) W.input_source_id)
                W.input_mode_id) W.input_mode_id)] ∧
        (receiver.worker_iteration W s r).device_grabber_ = some g ∧
        (receiver.worker_iteration W s r).console_user_server_process_monitor_ =
          s.console_user_server_process_monitor_)) := by
  rw [receiver.worker_iteration_received W s r hec hpos]
  refine ⟨?_, ?_, ?_⟩
  · intro htag hn
    have hd : receiver.dispatch W { s with buffer_ := r.buffer } r.n =
        receiver.on_system_preferences_updated W { s with buffer_ := r.buffer } r.n := by
      unfold receiver.dispatch
      simp only [htag]
    rw [hd]
    unfold receiver.on_system_preferences_updated
    rw [if_neg (Nat.not_lt.mpr hn)]
    constructor
    · intro hg
      simp [hg]
    · intro g hg
      simp [hg]
  · intro htag hn
    have hd : receiver.dispatch W { s with buffer_ := r.buffer } r.n =
        receiver.on_frontmost_application_changed W { s with buffer_ := r.buffer } r.n := by
      unfold receiver.dispatch
      simp only [htag]
    rw [hd]
    unfold receiver.on_frontmost_application_changed
    rw [if_neg (Nat.not_lt.mpr hn)]
    constructor
    · intro hg
      simp [hg]
    · intro g hg
      simp [hg]
  · intro htag hn
    have hd : receiver.dispatch W { s with buffer_ := r.buffer } r.n =
        receiver.on_input_source_changed W { s with buffer_ := r.buffer } r.n := by
      unfold receiver.dispatch
      simp only [htag]
    rw [hd]
    unfold receiver.on_input_source_changed
    rw [if_neg (Nat.not_lt.mpr hn)]
    constructor
    · intro hg
      simp [hg]
    · intro g hg
      simp [hg]

/-- Witness of C11 on the sample layout: a valid `system_preferences_updated`
datagram makes no call on a receiver without device grabber, and one call on a
receiver that owns one. -/
theorem C11_downstream_absence_is_noop_witness :
    ((⟨false, 3, [3, 8, 9, 0, 0, 0, 0, 0]⟩ : receiver.receive_result).ec = false ∧
      0 < (⟨false, 3, [3, 8, 9, 0, 0, 0, 0, 0]⟩ : receiver.receive_result).n) ∧
    (receiver.worker_iteration sample_wire sample_receiver
        ⟨false, 3, [3, 8, 9, 0, 0, 0, 0, 0]⟩).calls = [] ∧
    (receiver.worker_iteration sample_wire sample_receiver
        ⟨false, 3, [3, 8, 9, 0, 0, 0, 0, 0]⟩).device_grabber_ = none ∧
    (receiver.worker_iteration sample_wire sample_receiver_connected
        ⟨false, 3, [3, 8, 9, 0, 0, 0, 0, 0]⟩).calls =
      [call.device_grabber_set_system_preferences [8, 9]] ∧
    (receiver.worker_iteration sample_wire sample_receiver_connected
        ⟨false, 3, [3, 8, 9, 0, 0, 0, 0, 0]⟩).device_grabber_ = some ⟨some [47]⟩ :=
  ⟨⟨rfl, by decide⟩,
    (((C11_downstream_absence_is_noop sample_wire sample_receiver
      ⟨false, 3, [3, 8, 9, 0, 0, 0, 0, 0]⟩ rfl (by decide)).1 (by decide) (by decide)).1
        rfl).2.1,
    (((C11_downstream_absence_is_noop sample_wire sample_receiver
      ⟨false, 3, [3, 8, 9, 0, 0, 0, 0, 0]⟩ rfl (by decide)).1 (by decide) (by decide)).1
        rfl).2.2,
    by decide, by decide⟩

/-- C12 (Scenario C, session exit fallback).  For every receiver state reached by
an accepted `connect`, a device grabber is active; when
`console_user_server_exit_callback` then runs, that device grabber is destroyed
first.  If the system-level configuration file exists, a new device grabber is
then constructed and started against the system-level path, and it is the only
one live; if the file does not exist, no device grabber is active afterwards. -/
theorem C12_session_exit_fallback (W : wire) (s s1 : receiver) (r : receiver.receive_result)
    (system_core_configuration_file_path : List Nat)
    (hec : r.ec = false) (hpos : 0 < r.n)
    (htag : W.cast (r.buffer.getD 0 0) = operation_type.connect)
    (hn : r.n = W.sizeof_connect_struct)
    (hs1 : s1 = receiver.worker_iteration W s r) :
    s1.device_grabber_.isSome = true ∧
    (receiver.console_user_server_exit_callback system_core_configuration_file_path true
        s1).device_grabber_ = some ⟨some system_core_configuration_file_path⟩ ∧
    (receiver.console_user_server_exit_callback system_core_configuration_file_path true
        s1).calls = s1.calls ++
      [call.device_grabber_dtor, call.device_grabber_ctor,
        call.device_grabber_start system_core_configuration_file_path] ∧
    (∀ k, receiver.live_after receiver.is_device_grabber_ctor receiver.is_device_grabber_dtor
      (receiver.owned s1.device_grabber_)
      ([call.device_grabber_dtor, call.device_grabber_ctor,
        call.device_grabber_start system_core_configuration_file_path].take k) ≤ 1) ∧
    receiver.live_after receiver.is_device_grabber_ctor receiver.is_device_grabber_dtor
      (receiver.owned s1.device_grabber_)
      [call.device_grabber_dtor, call.device_grabber_ctor,
        call.device_grabber_start system_core_configuration_file_path] = 1 ∧
    (receiver.console_user_server_exit_callback system_core_configuration_file_path false
        s1).device_grabber_ = none ∧
    (receiver.console_user_server_exit_callback system_core_configuration_file_path false
        s1).calls = s1.calls ++ [call.device_grabber_dtor] ∧
    receiver.live_after receiver.is_device_grabber_ctor receiver.is_device_grabber_dtor
      (receiver.owned s1.device_grabber_) [call.device_grabber_dtor] = 0 := by
  have e1 := receiver.worker_iteration_connect_accepted W s r hec hpos htag hn
  rw [receiver.on_connect_accepted, ← hs1] at e1
  have hg : s1.device_grabber_ = some ⟨some
      (c_string (terminate r.buffer W.user_core_configuration_file_path)
        W.user_core_configuration_file_path)⟩ := by rw [e1]
  obtain ⟨ht, hf⟩ := receiver.console_user_server_exit_callback_of_owned s1 _ hg
    system_core_configuration_file_path
  have hpeak : receiver.peak_live receiver.is_device_grabber_ctor
      receiver.is_device_grabber_dtor (receiver.owned s1.device_grabber_)
      [call.device_grabber_dtor, call.device_grabber_ctor,
        call.device_grabber_start system_core_configuration_file_path] ≤ 1 := by
    simp [hg, receiver.peak_live, receiver.owned, receiver.is_device_grabber_ctor,
      receiver.is_device_grabber_dtor]
  refine ⟨by rw [hg]; rfl, by rw [ht], by rw [ht],
    fun k => le_trans (receiver.live_after_take_le_peak_live _ _ _ _ k) hpeak, ?_,
    by rw [hf], by rw [hf], ?_⟩
  · simp [hg, receiver.live_after, receiver.owned, receiver.is_device_grabber_ctor,
      receiver.is_device_grabber_dtor]
  · simp [hg, receiver.live_after, receiver.owned, receiver.is_device_grabber_ctor,
      receiver.is_device_grabber_dtor]

/-- Witness of C12 on the sample layout: `connect` with pid bytes `[42, 0]` and
path `[65, 66]`, then the exit callback with system-level path `[83]`, once with
the file present and once with the file absent. -/
theorem C12_session_exit_fallback_witness :
    ((⟨false, 6, [2, 42, 0, 65, 66, 0, 0, 0]⟩ : receiver.receive_result).ec = false ∧
      0 < (⟨false, 6, [2, 42, 0, 65, 66, 0, 0, 0]⟩ : receiver.receive_result).n ∧
      sample_wire.cast ((⟨false, 6, [2, 42, 0, 65, 66, 0, 0, 0]⟩ :
        receiver.receive_result).buffer.getD 0 0) = operation_type.connect ∧
      (⟨false, 6, [2, 42, 0, 65, 66, 0, 0, 0]⟩ : receiver.receive_result).n =
        sample_wire.sizeof_connect_struct) ∧
    (receiver.console_user_server_exit_callback [83] true
        (receiver.worker_iteration sample_wire sample_receiver
          ⟨false, 6, [2, 42, 0, 65, 66, 0, 0, 0]⟩)).device_grabber_ = some ⟨some [83]⟩ ∧
    (receiver.console_user_server_exit_callback [83] true
        (receiver.worker_iteration sample_wire sample_receiver
          ⟨false, 6, [2, 42, 0, 65, 66, 0, 0, 0]⟩)).calls =
      [call.device_grabber_ctor, call.device_grabber_start [65, 66],
        call.process_monitor_ctor [42, 0],
        call.device_grabber_dtor, call.device_grabber_ctor, call.device_grabber_start [83]] ∧
    (receiver.console_user_server_exit_callback [83] false
        (receiver.worker_iteration sample_wire sample_receiver
          ⟨false, 6, [2, 42, 0, 65, 66, 0, 0, 0]⟩)).device_grabber_ = none := by
  have h := C12_session_exit_fallback sample_wire sample_receiver
    (receiver.worker_iteration sample_wire sample_receiver
      ⟨false, 6, [2, 42, 0, 65, 66, 0, 0, 0]⟩)
    ⟨false, 6, [2, 42, 0, 65, 66, 0, 0, 0]⟩ [83] rfl (by decide) (by decide) rfl rfl
  exact ⟨⟨rfl, by decide, by decide, rfl⟩, h.2.1, h.2.2.1.trans (by decide),
    h.2.2.2.2.2.1⟩

/-- C16 (transport errors and empty receives are never interpreted).  For every
receive result that carries an error code or reports `n = 0`, whatever the
receive buffer contains, the iteration makes no collaborator call, writes no log
line and leaves the device grabber and the process monitor as they are; with the
stop flag unset the loop goes on with the next receive, and after any number of
such receives in a row it is still running on the rest of the schedule with the
same calls, device grabber, process monitor and log. -/
theorem C16_failed_receive_not_interpreted (W : wire) (s : receiver)
    (r : receiver.receive_result) (rest : List (Bool × receiver.receive_result))
    (hfail : r.ec = true ∨ r.n = 0) :
    receiver.worker_iteration W s r = { s with buffer_ := r.buffer } ∧
    (receiver.worker_iteration W s r).calls = s.calls ∧
    (receiver.worker_iteration W s r).log = s.log ∧
    (receiver.worker_iteration W s r).device_grabber_ = s.device_grabber_ ∧
    (receiver.worker_iteration W s r).console_user_server_process_monitor_ =
      s.console_user_server_process_monitor_ ∧
    receiver.worker_loop W ((false, r) :: rest) s =
      receiver.worker_loop W rest { s with buffer_ := r.buffer } ∧
    (∀ schedule : List (Bool × receiver.receive_result),
      (∀ x ∈ schedule, x.1 = false ∧ (x.2.ec = true ∨ x.2.n = 0)) →
      ∃ s2 : receiver,
        receiver.worker_loop W (schedule ++ rest) s = receiver.worker_loop W rest s2 ∧
        s2.calls = s.calls ∧ s2.device_grabber_ = s.device_grabber_ ∧
        s2.console_user_server_process_monitor_ = s.console_user_server_process_monitor_ ∧
        s2.log = s.log) := by
  have h := receiver.worker_iteration_not_received W s r hfail
  refine ⟨h, by rw [h], by rw [h], by rw [h], by rw [h], ?_, ?_⟩
  · rw [receiver.worker_loop_cons, if_neg (by decide), h]
  · intro schedule hs
    exact receiver.worker_loop_failed_receives W rest schedule s hs

/-- Witness of C16 on the sample layout: the buffer holds a complete valid
`connect` datagram, but the receive reports an error; no call is made.  The same
holds when the receive reports zero bytes. -/
theorem C16_failed_receive_not_interpreted_witness :
    ((⟨true, 6, [2, 42, 0, 65, 66, 0, 0, 0]⟩ : receiver.receive_result).ec = true ∨
      (⟨true, 6, [2, 42, 0, 65, 66, 0, 0, 0]⟩ : receiver.receive_result).n = 0) ∧
    (receiver.worker_iteration sample_wire sample_receiver
        ⟨true, 6, [2, 42, 0, 65, 66, 0, 0, 0]⟩).calls = [] ∧
    (receiver.worker_iteration sample_wire sample_receiver
        ⟨true, 6, [2, 42, 0, 65, 66, 0, 0, 0]⟩).device_grabber_ = none ∧
    (receiver.worker_iteration sample_wire sample_receiver
        ⟨false, 0, [2, 42, 0, 65, 66, 0, 0, 0]⟩).calls = [] ∧
    (receiver.worker_loop sample_wire
        [(false, ⟨true, 6, [2, 42, 0, 65, 66, 0, 0, 0]⟩),
         (false, ⟨false, 4, [1, 7, 8, 9, 0, 0, 0, 0]⟩)] sample_receiver).calls =
      [call.grabbable_state_queues_manager_update_grabbable_state [7, 8, 9]] :=
  ⟨Or.inl rfl,
    (C16_failed_receive_not_interpreted sample_wire sample_receiver
      ⟨true, 6, [2, 42, 0, 65, 66, 0, 0, 0]⟩ [] (Or.inl rfl)).2.1,
    by decide, by decide, by decide⟩

end krbn
